import Mathlib

/-!
# Label placement and cross-frame fading (`src/mbgl/text/placement.cpp`)

A shallow embedding of the opacity state model, of `Placement::placeLayerBucket`,
`Placement::placeLayer`, `Placement::commit` and `Placement::getOpacity`.

Modelling conventions.
* C++ `float` values are exact rationals (`ℚ`); `std::fmax` / `std::fmin` are
  `max` / `min`.  Rounding is not modelled.
* `bool` converted to `float` is `1` for `true` and `0` for `false`.
* The two maps of a `Placement` are association lists in which every key is
  looked up by its first occurrence; `emplace` inserts only when the key is
  absent, as `std::unordered_map::emplace` does.  Loops over a map run in list
  order (the order of a hash map is unspecified; no result below depends on it).
* `uint32_t` identifiers are naturals, `++` wraps modulo `2 ^ 32`.
* The collision structure is an external collaborator.  Its state is the log of
  the `insertFeature` calls it has received; its `placeFeature` answer is an
  arbitrary function of that log and of the arguments of the call.
* The `TimePoint` / `Duration` types are declared outside this file.  Time
  points are integers (ticks) and the quotient of two durations is a parameter
  `durationRatio` of `commit`.
-/

namespace mbgl

/-! ## Opacity state model -/

/-- One fading channel: the current opacity and the opacity it is heading to. -/
structure OpacityState where
  opacity : ℚ
  targetOpacity : ℚ
deriving DecidableEq, Repr

/-- Embedding of `std::fmax`. -/
def fmax (a b : ℚ) : ℚ := max a b

/-- Embedding of `std::fmin`. -/
def fmin (a b : ℚ) : ℚ := min a b

/-- Conversion of a C++ `bool` to `float`. -/
def boolToFloat (b : Bool) : ℚ := if b then 1 else 0

/-- Constructor `OpacityState::OpacityState(float targetOpacity_)` (line 11). -/
def OpacityState.fromTarget (targetOpacity_ : ℚ) : OpacityState :=
  { opacity := 0, targetOpacity := targetOpacity_ }

/-- Constructor `OpacityState::OpacityState(OpacityState& prevState, float increment,
float targetOpacity)` (lines 13-15).  In C++ `+` binds tighter than `==`, which binds
tighter than `?:`, so the argument of `std::fmin` is
`((prevState.opacity + prevState.targetOpacity) == 1.0) ? increment : -increment`. -/
def OpacityState.fromPrev (prevState : OpacityState) (increment targetOpacity : ℚ) :
    OpacityState :=
  { opacity := fmax 0 (fmin 1
      (if prevState.opacity + prevState.targetOpacity = 1 then increment else -increment)),
    targetOpacity := targetOpacity }

/-- Method `OpacityState::isHidden` (lines 17-19). -/
def OpacityState.isHidden (s : OpacityState) : Bool :=
  decide (s.opacity = 0) && decide (s.targetOpacity = 0)

/-- The paired fade state of a label: icon channel and text channel. -/
structure JointOpacityState where
  icon : OpacityState
  text : OpacityState
deriving DecidableEq, Repr

/-- Constructor `JointOpacityState::JointOpacityState(float iconOpacity_, float textOpacity_)`
(lines 21-23). -/
def JointOpacityState.fromTargets (iconOpacity_ textOpacity_ : ℚ) : JointOpacityState :=
  { icon := OpacityState.fromTarget iconOpacity_,
    text := OpacityState.fromTarget textOpacity_ }

/-- Constructor `JointOpacityState::JointOpacityState(JointOpacityState& prevOpacityState,
float increment, float iconOpacity, float textOpacity)` (lines 25-27). -/
def JointOpacityState.fromPrev (prevOpacityState : JointOpacityState)
    (increment iconOpacity textOpacity : ℚ) : JointOpacityState :=
  { icon := OpacityState.fromPrev prevOpacityState.icon increment iconOpacity,
    text := OpacityState.fromPrev prevOpacityState.text increment textOpacity }

/-- The transition rule as the specification words it: the previous current moved by plus
or minus the increment, then clamped to `[0,1]`. -/
def specNextOpacity (prev : OpacityState) (increment : ℚ) : ℚ :=
  max 0 (min 1 (prev.opacity +
    (if prev.opacity + prev.targetOpacity = 1 then increment else -increment)))

/-! ## Maps keyed by identifier -/

/-- A map from identifiers to values, as an association list. -/
abbrev IdMap (V : Type) := List (Nat × V)

/-- Lookup `find`: the value stored for a key, if any. -/
def IdMap.find {V : Type} : IdMap V → Nat → Option V
  | [], _ => none
  | (k, v) :: rest, key => if k = key then some v else IdMap.find rest key

/-- Insertion `emplace`: inserts the pair unless the key is already present. -/
def IdMap.emplace {V : Type} (m : IdMap V) (key : Nat) (v : V) : IdMap V :=
  match IdMap.find m key with
  | some _ => m
  | none => (key, v) :: m

/-! ## Placement -/

/-- The decision recorded for one identifier, built as `PlacementPair(placeText, placeIcon)`. -/
structure PlacementPair where
  text : Bool
  icon : Bool
deriving DecidableEq, Repr

/-- One box of a collision feature. -/
structure CollisionBox where
  extent : Nat
  used : Bool
deriving DecidableEq, Repr

/-- The collision extents of one half of a label. -/
structure CollisionFeature where
  boxes : List CollisionBox
  alongLine : Bool
deriving DecidableEq, Repr

/-- The state of the collision structure: the `insertFeature` calls received so far, most
recent first, each with its `ignorePlacement` argument. -/
abbrev CollisionIndex := List (CollisionFeature × Bool)

/-- Call `collisionIndex.insertFeature(feature, ignorePlacement)`. -/
def CollisionIndex.insertFeature (ci : CollisionIndex) (feature : CollisionFeature)
    (ignorePlacement : Bool) : CollisionIndex :=
  (feature, ignorePlacement) :: ci

/-- A frame snapshot (the members of `Placement` that the embedded code reads or writes). -/
structure Placement where
  collisionIndex : CollisionIndex
  placements : IdMap PlacementPair
  opacities : IdMap JointOpacityState
  commitTime : Int
  maxCrossTileID : Nat
deriving DecidableEq, Repr

/-- A 4x4 matrix, as the list of its entries; only passed on to collaborators. -/
abbrev Mat4 := List ℚ

/-- A placed-symbol record of a bucket; only looked up and passed on to collaborators. -/
abbrev PlacedSymbol := Nat

/-- A label candidate (the members the embedded code reads or writes). -/
structure SymbolInstance where
  isDuplicate : Bool
  placedTextIndices : List Nat
  placedIconIndices : List Nat
  textCollisionFeature : CollisionFeature
  iconCollisionFeature : CollisionFeature
  placedText : Bool
  placedIcon : Bool
  crossTileID : Nat
  hasText : Bool
  hasIcon : Bool
  glyphQuads : List Nat
  iconQuad : Option Nat
deriving DecidableEq, Repr

/-- A symbol bucket: its candidates, the answers of `hasTextData()` / `hasIconData()`, the
layout properties the pass reads, and the placed-symbol records of both halves. -/
structure SymbolBucket where
  symbolInstances : List SymbolInstance
  hasTextData : Bool
  hasIconData : Bool
  textOptional : Bool
  iconOptional : Bool
  textAllowOverlap : Bool
  iconAllowOverlap : Bool
  textIgnorePlacement : Bool
  iconIgnorePlacement : Bool
  textPitchAlignmentMap : Bool
  iconPitchAlignmentMap : Bool
  textRotationAlignmentMap : Bool
  iconRotationAlignmentMap : Bool
  textPlacedSymbols : List PlacedSymbol
  iconPlacedSymbols : List PlacedSymbol
  textSizeBinder : Nat
  iconSizeBinder : Nat
deriving DecidableEq, Repr

/-- A render tile of a symbol layer. -/
structure RenderTile where
  renderable : Bool
  bucket : SymbolBucket
  matrix : Mat4
  canonicalZ : Nat
deriving DecidableEq, Repr

/-- The arguments of one `collisionIndex.placeFeature` call, after the feature. -/
structure PlaceFeatureArgs where
  posMatrix : Mat4
  labelPlaneMatrix : Mat4
  pixelRatio : ℚ
  placedSymbol : PlacedSymbol
  scale : ℚ
  fontSize : ℚ
  allowOverlap : Bool
  pitchWithMap : Bool
  showCollisionBoxes : Bool
deriving DecidableEq, Repr

/-- The collaborators of the placement pass, all declared outside this file: the collision
test, size evaluation at the current zoom, the label-plane matrix, the tile scale factors
and the quotient `util::EXTENT / util::tileSize`. -/
structure Collaborators where
  placeFeature : CollisionIndex → CollisionFeature → PlaceFeatureArgs → Bool
  evaluateSizeForFeature : Nat → PlacedSymbol → ℚ
  getLabelPlaneMatrix : Mat4 → Bool → Bool → ℚ → Mat4
  pixelsToTileUnits : RenderTile → ℚ
  tileScale : Nat → ℚ
  pixelRatio : ℚ

/-- Constructor `Placement::Placement(const TransformState&)` (line 30).  It initialises
only the collision index and the transform state; the counter takes the in-class default
of the header, which is the parameter `defaultMaxCrossTileID`. -/
def Placement.new (defaultMaxCrossTileID : Nat) : Placement :=
  { collisionIndex := [], placements := [], opacities := [], commitTime := 0,
    maxCrossTileID := defaultMaxCrossTileID }

/-- The raw collision answer for the text half (lines 87, 92-104): `false` without text
geometry, `none` when an `at` lookup is out of range. -/
def rawPlaceText (env : Collaborators) (bucket : SymbolBucket)
    (posMatrix textLabelPlaneMatrix : Mat4) (scale : ℚ) (showCollisionBoxes : Bool)
    (self : Placement) (symbolInstance : SymbolInstance) : Option Bool :=
  if symbolInstance.placedTextIndices.length ≠ 0 then do
    let index ← symbolInstance.placedTextIndices[0]?
    let placedSymbol ← bucket.textPlacedSymbols[index]?
    let fontSize := env.evaluateSizeForFeature bucket.textSizeBinder placedSymbol
    pure (env.placeFeature self.collisionIndex symbolInstance.textCollisionFeature
      { posMatrix := posMatrix, labelPlaneMatrix := textLabelPlaneMatrix,
        pixelRatio := env.pixelRatio, placedSymbol := placedSymbol, scale := scale,
        fontSize := fontSize, allowOverlap := bucket.textAllowOverlap,
        pitchWithMap := bucket.textPitchAlignmentMap,
        showCollisionBoxes := showCollisionBoxes })
  else pure false

/-- The raw collision answer for the icon half (lines 88, 106-117). -/
def rawPlaceIcon (env : Collaborators) (bucket : SymbolBucket)
    (posMatrix iconLabelPlaneMatrix : Mat4) (scale : ℚ) (showCollisionBoxes : Bool)
    (self : Placement) (symbolInstance : SymbolInstance) : Option Bool :=
  if symbolInstance.placedIconIndices.length ≠ 0 then do
    let index ← symbolInstance.placedIconIndices[0]?
    let placedSymbol ← bucket.iconPlacedSymbols[index]?
    let fontSize := env.evaluateSizeForFeature bucket.iconSizeBinder placedSymbol
    pure (env.placeFeature self.collisionIndex symbolInstance.iconCollisionFeature
      { posMatrix := posMatrix, labelPlaneMatrix := iconLabelPlaneMatrix,
        pixelRatio := env.pixelRatio, placedSymbol := placedSymbol, scale := scale,
        fontSize := fontSize, allowOverlap := bucket.iconAllowOverlap,
        pitchWithMap := bucket.iconPitchAlignmentMap,
        showCollisionBoxes := showCollisionBoxes })
  else pure false

/-- The coupling of the two raw answers (lines 119-126); the result is
`(placeText, placeIcon)`. -/
def combinePlacements (iconWithoutText textWithoutIcon placeText placeIcon : Bool) :
    Bool × Bool :=
  if !iconWithoutText && !textWithoutIcon then (placeText && placeIcon, placeText && placeIcon)
  else if !textWithoutIcon then (placeText && placeIcon, placeIcon)
  else if !iconWithoutText then (placeText, placeText && placeIcon)
  else (placeText, placeIcon)

/-- The part of the loop body of `placeLayerBucket` after the two collision tests
(lines 119-143): coupling, recording on the candidate, insertion into the collision
structure, identifier assignment and the entry of the placement map. -/
def recordPlacement (bucket : SymbolBucket) (self : Placement) (symbolInstance : SymbolInstance)
    (placeText0 placeIcon0 : Bool) : Placement × SymbolInstance :=
  let iconWithoutText := !bucket.hasTextData || bucket.textOptional
  let textWithoutIcon := !bucket.hasIconData || bucket.iconOptional
  let combined := combinePlacements iconWithoutText textWithoutIcon placeText0 placeIcon0
  let placeText := combined.1
  let placeIcon := combined.2
  let index1 :=
    if placeText then
      self.collisionIndex.insertFeature symbolInstance.textCollisionFeature
        bucket.textIgnorePlacement
    else self.collisionIndex
  let index2 :=
    if placeIcon then
      index1.insertFeature symbolInstance.iconCollisionFeature bucket.iconIgnorePlacement
    else index1
  let maxCrossTileID :=
    if symbolInstance.crossTileID = 0 then (self.maxCrossTileID + 1) % 2 ^ 32
    else self.maxCrossTileID
  let crossTileID :=
    if symbolInstance.crossTileID = 0 then maxCrossTileID else symbolInstance.crossTileID
  ({ self with
      collisionIndex := index2,
      maxCrossTileID := maxCrossTileID,
      placements :=
        IdMap.emplace self.placements crossTileID { text := placeText, icon := placeIcon } },
    { symbolInstance with
      placedText := placeText, placedIcon := placeIcon, crossTileID := crossTileID })

/-- The body of the loop of `placeLayerBucket` for one candidate (lines 85-144): nothing
for a duplicate, otherwise the two collision tests followed by `recordPlacement`. -/
def placeSymbolInstance (env : Collaborators) (bucket : SymbolBucket)
    (posMatrix textLabelPlaneMatrix iconLabelPlaneMatrix : Mat4) (scale : ℚ)
    (showCollisionBoxes : Bool) (self : Placement) (symbolInstance : SymbolInstance) :
    Option (Placement × SymbolInstance) :=
  if symbolInstance.isDuplicate then some (self, symbolInstance)
  else
    match rawPlaceText env bucket posMatrix textLabelPlaneMatrix scale showCollisionBoxes
        self symbolInstance with
    | none => none
    | some placeText0 =>
        match rawPlaceIcon env bucket posMatrix iconLabelPlaneMatrix scale showCollisionBoxes
            self symbolInstance with
        | none => none
        | some placeIcon0 =>
            some (recordPlacement bucket self symbolInstance placeText0 placeIcon0)

/-- The loop of `placeLayerBucket` over the candidates, in bucket order (line 84). -/
def placeSymbolInstances (env : Collaborators) (bucket : SymbolBucket)
    (posMatrix textLabelPlaneMatrix iconLabelPlaneMatrix : Mat4) (scale : ℚ)
    (showCollisionBoxes : Bool) :
    Placement → List SymbolInstance → Option (Placement × List SymbolInstance)
  | self, [] => some (self, [])
  | self, symbolInstance :: rest =>
      match placeSymbolInstance env bucket posMatrix textLabelPlaneMatrix
          iconLabelPlaneMatrix scale showCollisionBoxes self symbolInstance with
      | none => none
      | some (self1, symbolInstance1) =>
          match placeSymbolInstances env bucket posMatrix textLabelPlaneMatrix
              iconLabelPlaneMatrix scale showCollisionBoxes self1 rest with
          | none => none
          | some (self2, rest2) => some (self2, symbolInstance1 :: rest2)

/-- Method `Placement::placeLayerBucket` (lines 64-146). -/
def Placement.placeLayerBucket (env : Collaborators) (self : Placement)
    (bucket : SymbolBucket) (posMatrix textLabelPlaneMatrix iconLabelPlaneMatrix : Mat4)
    (scale : ℚ) (showCollisionBoxes : Bool) : Option (Placement × SymbolBucket) :=
  match placeSymbolInstances env bucket posMatrix textLabelPlaneMatrix iconLabelPlaneMatrix
      scale showCollisionBoxes self bucket.symbolInstances with
  | none => none
  | some (self1, instances) => some (self1, { bucket with symbolInstances := instances })

/-- Method `Placement::placeLayer` (lines 32-62), over the render tiles of the layer. -/
def Placement.placeLayer (env : Collaborators) (showCollisionBoxes : Bool) :
    Placement → List RenderTile → Option (Placement × List RenderTile)
  | self, [] => some (self, [])
  | self, renderTile :: rest =>
      if !renderTile.renderable then
        match Placement.placeLayer env showCollisionBoxes self rest with
        | none => none
        | some (self2, rest2) => some (self2, renderTile :: rest2)
      else
        let pixelsToTileUnits := env.pixelsToTileUnits renderTile
        let scale := env.tileScale renderTile.canonicalZ
        let textLabelPlaneMatrix :=
          env.getLabelPlaneMatrix renderTile.matrix renderTile.bucket.textPitchAlignmentMap
            renderTile.bucket.textRotationAlignmentMap pixelsToTileUnits
        let iconLabelPlaneMatrix :=
          env.getLabelPlaneMatrix renderTile.matrix renderTile.bucket.iconPitchAlignmentMap
            renderTile.bucket.iconRotationAlignmentMap pixelsToTileUnits
        match Placement.placeLayerBucket env self renderTile.bucket renderTile.matrix
            textLabelPlaneMatrix iconLabelPlaneMatrix scale showCollisionBoxes with
        | none => none
        | some (self1, bucket1) =>
            match Placement.placeLayer env showCollisionBoxes self1 rest with
            | none => none
            | some (self2, rest2) =>
                some (self2, { renderTile with bucket := bucket1 } :: rest2)

/-- Constant `symbolFadeDuration(300)` of `commit` (line 158), in ticks. -/
def symbolFadeDuration : Int := 300

/-- Body of the first loop of `commit` when there is no predecessor (lines 153-155). -/
def commitFresh (placements : IdMap PlacementPair) (opacities : IdMap JointOpacityState) :
    IdMap JointOpacityState :=
  placements.foldl
    (fun ops placementPair =>
      IdMap.emplace ops placementPair.1
        (JointOpacityState.fromTargets (boolToFloat placementPair.2.icon)
          (boolToFloat placementPair.2.text)))
    opacities

/-- Loop of `commit` over the current placements when there is a predecessor
(lines 162-169). -/
def commitCurrent (prevOpacities : IdMap JointOpacityState) (increment : ℚ)
    (placements : IdMap PlacementPair) (opacities : IdMap JointOpacityState) :
    IdMap JointOpacityState :=
  placements.foldl
    (fun ops placementPair =>
      match IdMap.find prevOpacities placementPair.1 with
      | some prevOpacity =>
          IdMap.emplace ops placementPair.1
            (JointOpacityState.fromPrev prevOpacity increment
              (boolToFloat placementPair.2.icon) (boolToFloat placementPair.2.text))
      | none =>
          IdMap.emplace ops placementPair.1
            (JointOpacityState.fromTargets (boolToFloat placementPair.2.icon)
              (boolToFloat placementPair.2.text)))
    opacities

/-- Loop of `commit` over the predecessor's opacities (lines 172-180).  The guard is the
one of the source: the body runs when the identifier IS found in the new map. -/
def commitPrevious (prevOpacities : IdMap JointOpacityState) (increment : ℚ)
    (opacities : IdMap JointOpacityState) : IdMap JointOpacityState :=
  prevOpacities.foldl
    (fun ops prevOpacity =>
      if (IdMap.find ops prevOpacity.1).isSome then
        let jointOpacity := JointOpacityState.fromPrev prevOpacity.2 increment 0 0
        if jointOpacity.icon.opacity ≠ jointOpacity.icon.targetOpacity ∨
            jointOpacity.text.opacity ≠ jointOpacity.text.targetOpacity then
          IdMap.emplace ops prevOpacity.1 jointOpacity
        else ops
      else ops)
    opacities

/-- Method `Placement::commit` (lines 148-182).  The parameter `durationRatio` is the
quotient `Duration / Duration` of line 159, converted to `float`. -/
def Placement.commit (durationRatio : Int → Int → ℚ) (self : Placement)
    (prevPlacement : Option Placement) (now : Int) : Placement :=
  match prevPlacement with
  | none =>
      { self with
        commitTime := now,
        opacities := commitFresh self.placements self.opacities }
  | some prev =>
      let increment : ℚ := durationRatio (now - prev.commitTime) symbolFadeDuration
      { self with
        commitTime := now,
        opacities :=
          commitPrevious prev.opacities increment
            (commitCurrent prev.opacities increment self.placements self.opacities) }

/-- Method `Placement::getOpacity` (lines 253-261). -/
def Placement.getOpacity (self : Placement) (crossTileSymbolID : Nat) : JointOpacityState :=
  match IdMap.find self.opacities crossTileSymbolID with
  | some j => j
  | none => JointOpacityState.fromTargets 0 0

/-- The quotient of two durations read as an exact ratio. -/
def exactRatio (a b : Int) : ℚ := (a : ℚ) / (b : ℚ)

/-- The quotient of two durations read as C++ integer division of tick counts. -/
def truncRatio (a b : Int) : ℚ := ((Int.tdiv a b : Int) : ℚ)

/-- The value `commit` computes for an identifier of the current placement map when there
is a predecessor (lines 163-168). -/
def nextJointOpacity (prevOpacities : IdMap JointOpacityState) (increment : ℚ) (key : Nat)
    (pair : PlacementPair) : JointOpacityState :=
  match IdMap.find prevOpacities key with
  | some prevOpacity =>
      JointOpacityState.fromPrev prevOpacity increment (boolToFloat pair.icon)
        (boolToFloat pair.text)
  | none => JointOpacityState.fromTargets (boolToFloat pair.icon) (boolToFloat pair.text)

/-! ## Sample data used to evaluate the code -/

/-- A frame in which the label `1` has its text and its icon placed. -/
def framePlaced : Placement :=
  { collisionIndex := [], placements := [(1, { text := true, icon := true })],
    opacities := [], commitTime := 0, maxCrossTileID := 1 }

/-- A frame in which the label `1` (text only) has its text placed. -/
def frameTextShown : Placement :=
  { collisionIndex := [], placements := [(1, { text := true, icon := false })],
    opacities := [], commitTime := 0, maxCrossTileID := 1 }

/-- A frame in which the label `1` is a candidate but neither half is placed. -/
def frameTextRejected : Placement :=
  { collisionIndex := [], placements := [(1, { text := false, icon := false })],
    opacities := [], commitTime := 0, maxCrossTileID := 1 }

/-- A frame without any candidate. -/
def frameEmpty : Placement :=
  { collisionIndex := [], placements := [], opacities := [], commitTime := 150,
    maxCrossTileID := 0 }

/-- A committed predecessor holding label `7` in the middle of a fade. -/
def predecessorFading : Placement :=
  { collisionIndex := [], placements := [],
    opacities := [(7, { icon := { opacity := 2 / 5, targetOpacity := 1 },
                        text := { opacity := 1 / 5, targetOpacity := 1 } })],
    commitTime := 0, maxCrossTileID := 7 }

/-- First commit of `framePlaced`, without predecessor, at time 0. -/
def commitFirst (durationRatio : Int → Int → ℚ) : Placement :=
  Placement.commit durationRatio framePlaced none 0

/-- Second commit of the same placement map, 300 ticks after the first. -/
def commitSecond (durationRatio : Int → Int → ℚ) : Placement :=
  Placement.commit durationRatio framePlaced (some (commitFirst durationRatio)) 300

/-- Third commit of the same placement map, 300 ticks after the second. -/
def commitThird (durationRatio : Int → Int → ℚ) : Placement :=
  Placement.commit durationRatio framePlaced (some (commitSecond durationRatio)) 600

/-- A commit of the same placement map at the very time of the second commit. -/
def commitAgain (durationRatio : Int → Int → ℚ) : Placement :=
  Placement.commit durationRatio framePlaced (some (commitSecond durationRatio)) 300


/-- The `at` lookups of the loop body succeed for this candidate: it is a duplicate, or the
first placed-text index and the first placed-icon index, when present, are within the
placed-symbol records of the bucket. -/
def indicesInRange (bucket : SymbolBucket) (s : SymbolInstance) : Bool :=
  s.isDuplicate ||
    ((match s.placedTextIndices with
      | [] => true
      | index :: _ => decide (index < bucket.textPlacedSymbols.length)) &&
     (match s.placedIconIndices with
      | [] => true
      | index :: _ => decide (index < bucket.iconPlacedSymbols.length)))

/-- The `at` lookups succeed for every candidate of the bucket. -/
def bucketInRange (bucket : SymbolBucket) : Bool :=
  bucket.symbolInstances.all (indicesInRange bucket)

/-- The `at` lookups succeed for every candidate of every renderable tile. -/
def tilesInRange (tiles : List RenderTile) : Bool :=
  tiles.all (fun t => !t.renderable || bucketInRange t.bucket)

/-- The identifiers held by the candidates of the tiles, in tile and bucket order. -/
def crossTileIDs (tiles : List RenderTile) : List Nat :=
  (tiles.map (fun t => t.bucket.symbolInstances.map (fun s => s.crossTileID))).flatten

/-- No two entries of the list are the same non-zero identifier. -/
def UniqueNonZero (ids : List Nat) : Prop :=
  (ids.filter (fun i => decide (i ≠ 0))).Nodup

instance (ids : List Nat) : Decidable (UniqueNonZero ids) := by
  unfold UniqueNonZero
  infer_instance

/-- A collision structure for the examples: a feature is rejected when one of its boxes has
the extent of a box of a feature inserted earlier without `ignorePlacement`. -/
def sampleCollaborators : Collaborators :=
  { placeFeature := fun index feature _ =>
      !(index.any (fun entry =>
          !entry.2 && entry.1.boxes.any (fun b => feature.boxes.any (fun c => b.extent == c.extent)))),
    evaluateSizeForFeature := fun _ _ => 16,
    getLabelPlaneMatrix := fun m _ _ _ => m,
    pixelsToTileUnits := fun _ => 1,
    tileScale := fun _ => 1,
    pixelRatio := 16 }

/-- A candidate for the examples, with one text box and one icon box. -/
def sampleInstance (crossTileID textExtent iconExtent : Nat) : SymbolInstance :=
  { isDuplicate := false, placedTextIndices := [0], placedIconIndices := [0],
    textCollisionFeature := { boxes := [{ extent := textExtent, used := false }],
                              alongLine := false },
    iconCollisionFeature := { boxes := [{ extent := iconExtent, used := false }],
                              alongLine := false },
    placedText := false, placedIcon := false, crossTileID := crossTileID,
    hasText := true, hasIcon := true, glyphQuads := [0], iconQuad := some 0 }

/-- A bucket for the examples in which neither half can stand alone. -/
def sampleBucket (instances : List SymbolInstance) : SymbolBucket :=
  { symbolInstances := instances, hasTextData := true, hasIconData := true,
    textOptional := false, iconOptional := false, textAllowOverlap := false,
    iconAllowOverlap := false, textIgnorePlacement := false, iconIgnorePlacement := false,
    textPitchAlignmentMap := false, iconPitchAlignmentMap := false,
    textRotationAlignmentMap := false, iconRotationAlignmentMap := false,
    textPlacedSymbols := [0], iconPlacedSymbols := [0], textSizeBinder := 0,
    iconSizeBinder := 0 }

/-- A bucket with a candidate holding identifier 1 and a new candidate whose icon box
overlaps the icon box of the first. -/
def coupledBucket : SymbolBucket :=
  sampleBucket [sampleInstance 1 10 11, sampleInstance 0 12 11]

/-- A renderable tile around a bucket. -/
def sampleTile (bucket : SymbolBucket) : RenderTile :=
  { renderable := true, bucket := bucket, matrix := [], canonicalZ := 0 }

/-- First frame: a new Placement places a layer with one tile holding one new candidate,
and is committed without predecessor. -/
def frameOne : Option (Placement × List RenderTile) :=
  match Placement.placeLayer sampleCollaborators false (Placement.new 0)
      [sampleTile (sampleBucket [sampleInstance 0 10 11])] with
  | none => none
  | some (placement, tiles) => some (Placement.commit exactRatio placement none 0, tiles)

/-- Second frame: a new Placement places the layer, which now has a second tile holding
another new candidate, and is committed against the Placement of the first frame. -/
def frameTwo : Option (Placement × List RenderTile) :=
  match frameOne with
  | none => none
  | some (previous, tiles) =>
      match Placement.placeLayer sampleCollaborators false (Placement.new 0)
          (tiles ++ [sampleTile (sampleBucket [sampleInstance 0 20 21])]) with
      | none => none
      | some (placement, tiles2) =>
          some (Placement.commit exactRatio placement (some previous) 300, tiles2)

/-! ## Bucket opacity projection -/

/-- The per-vertex opacity vectors of a bucket (`text.opacityVertices` and its siblings), the
vertex buffers they are uploaded to, and the answers of `hasCollisionBoxData()` and
`hasCollisionCircleData()`.  `V` is the type of a symbol opacity vertex, `W` the type of a
collision-box opacity vertex. -/
structure OpacityBuffers (V W : Type) where
  hasCollisionBoxData : Bool
  hasCollisionCircleData : Bool
  textOpacityVertices : List V
  iconOpacityVertices : List V
  collisionBoxOpacityVertices : List W
  collisionCircleOpacityVertices : List W
  textOpacityVertexBuffer : List V
  iconOpacityVertexBuffer : List V
  collisionBoxOpacityVertexBuffer : List W
  collisionCircleOpacityVertexBuffer : List W

/-- The lambda `updateCollisionBox` of `updateBucketOpacities` (lines 226-242); `boxVertex`
is `CollisionBoxOpacityAttributes::vertex`, declared outside this file. -/
def updateCollisionBox {V W : Type} (boxVertex : Bool → Bool → W)
    (buffers : OpacityBuffers V W) (feature : CollisionFeature) (placed : Bool) :
    OpacityBuffers V W :=
  feature.boxes.foldl
    (fun acc box =>
      if feature.alongLine then
        { acc with
          collisionCircleOpacityVertices :=
            acc.collisionCircleOpacityVertices ++ List.replicate 4 (boxVertex placed (!box.used)) }
      else
        { acc with
          collisionBoxOpacityVertices :=
            acc.collisionBoxOpacityVertices ++ List.replicate 4 (boxVertex placed false) })
    buffers

/-- The body of the loop of `updateBucketOpacities` for one candidate (lines 205-244);
`vertex` is `SymbolOpacityAttributes::vertex`, declared outside this file. -/
def updateInstanceOpacities {V W : Type} (vertex : ℚ → ℚ → V) (boxVertex : Bool → Bool → W)
    (self : Placement) (buffers : OpacityBuffers V W) (symbolInstance : SymbolInstance) :
    OpacityBuffers V W :=
  let opacityState := self.getOpacity symbolInstance.crossTileID
  let buffers1 :=
    if symbolInstance.hasText then
      { buffers with
        textOpacityVertices :=
          buffers.textOpacityVertices ++
            List.replicate (symbolInstance.glyphQuads.length * 4)
              (vertex opacityState.text.targetOpacity opacityState.text.opacity) }
    else buffers
  let buffers2 :=
    if symbolInstance.hasIcon then
      if symbolInstance.iconQuad.isSome then
        { buffers1 with
          iconOpacityVertices :=
            buffers1.iconOpacityVertices ++
              List.replicate 4
                (vertex opacityState.icon.targetOpacity opacityState.icon.opacity) }
      else buffers1
    else buffers1
  let buffers3 :=
    updateCollisionBox boxVertex buffers2 symbolInstance.textCollisionFeature
      symbolInstance.placedText
  updateCollisionBox boxVertex buffers3 symbolInstance.iconCollisionFeature
    symbolInstance.placedIcon

/-- Method `Placement::updateBucketOpacities` (lines 197-251).  A vector handed over with
`std::move` is left empty. -/
def Placement.updateBucketOpacities {V W : Type} (vertex : ℚ → ℚ → V)
    (boxVertex : Bool → Bool → W) (self : Placement) (bucket : SymbolBucket)
    (buffers : OpacityBuffers V W) : OpacityBuffers V W :=
  let cleared1 := if bucket.hasTextData then { buffers with textOpacityVertices := [] } else buffers
  let cleared2 :=
    if bucket.hasIconData then { cleared1 with iconOpacityVertices := [] } else cleared1
  let cleared3 :=
    if cleared2.hasCollisionBoxData then { cleared2 with collisionBoxOpacityVertices := [] }
    else cleared2
  let cleared4 :=
    if cleared3.hasCollisionCircleData then
      { cleared3 with collisionCircleOpacityVertices := [] }
    else cleared3
  let filled :=
    bucket.symbolInstances.foldl (updateInstanceOpacities vertex boxVertex self) cleared4
  let uploaded1 :=
    if bucket.hasTextData then
      { filled with
        textOpacityVertexBuffer := filled.textOpacityVertices, textOpacityVertices := [] }
    else filled
  let uploaded2 :=
    if bucket.hasIconData then
      { uploaded1 with
        iconOpacityVertexBuffer := uploaded1.iconOpacityVertices, iconOpacityVertices := [] }
    else uploaded1
  let uploaded3 :=
    if uploaded2.hasCollisionBoxData then
      { uploaded2 with
        collisionBoxOpacityVertexBuffer := uploaded2.collisionBoxOpacityVertices,
        collisionBoxOpacityVertices := [] }
    else uploaded2
  if uploaded3.hasCollisionCircleData then
    { uploaded3 with
      collisionCircleOpacityVertexBuffer := uploaded3.collisionCircleOpacityVertices,
      collisionCircleOpacityVertices := [] }
  else uploaded3

/-- The text vertices the specification asks for one candidate: `4 x` (number of glyph
quads) copies of its committed text state when it has text, nothing otherwise. -/
def specTextVertices {V : Type} (vertex : ℚ → ℚ → V) (self : Placement) (s : SymbolInstance) :
    List V :=
  if s.hasText then
    List.replicate (4 * s.glyphQuads.length)
      (vertex (self.getOpacity s.crossTileID).text.targetOpacity
        (self.getOpacity s.crossTileID).text.opacity)
  else []

/-- The icon vertices the specification asks for one candidate: four copies of its
committed icon state when it has an icon and an icon quad, nothing otherwise. -/
def specIconVertices {V : Type} (vertex : ℚ → ℚ → V) (self : Placement) (s : SymbolInstance) :
    List V :=
  if s.hasIcon && s.iconQuad.isSome then
    List.replicate 4
      (vertex (self.getOpacity s.crossTileID).icon.targetOpacity
        (self.getOpacity s.crossTileID).icon.opacity)
  else []

/-- Buffers for the examples, holding content of an earlier call. -/
def staleBuffers : OpacityBuffers (ℚ × ℚ) (Bool × Bool) :=
  { hasCollisionBoxData := true, hasCollisionCircleData := false,
    textOpacityVertices := [(9, 9)], iconOpacityVertices := [(9, 9)],
    collisionBoxOpacityVertices := [], collisionCircleOpacityVertices := [],
    textOpacityVertexBuffer := [(8, 8)], iconOpacityVertexBuffer := [(8, 8)],
    collisionBoxOpacityVertexBuffer := [], collisionCircleOpacityVertexBuffer := [] }

/-! ## The fade increment -/

/-- Modelled from the spec: the quotient `Duration / Duration` of line 159, whose operand
type is declared in a header outside this file.  The specification gives it as the ratio
`(now - previous.commitTimestamp) / fadeDuration` with timestamps and the fade duration
(300) counted in milliseconds, a full transition taking 300 ms. -/
def durationQuotient (elapsed fadeDuration : Int) : ℚ :=
  (elapsed : ℚ) / (fadeDuration : ℚ)

/-! ## Auxiliary notions for the placement pass -/

/-- The candidate takes a new identifier from the counter: it is not a duplicate and has
no identifier yet. -/
def takesIdentifier (s : SymbolInstance) : Bool :=
  !s.isDuplicate && decide (s.crossTileID = 0)

/-- The identifiers handed out by a pass, in bucket order: those that the candidates taking
a new identifier hold after the pass. -/
def handedOut : List SymbolInstance → List SymbolInstance → List Nat
  | s :: rest, s1 :: rest1 =>
      if takesIdentifier s then s1.crossTileID :: handedOut rest rest1 else handedOut rest rest1
  | _, _ => []

/-- The `insertFeature` calls that match the flags recorded on a processed candidate, most
recent first: the icon feature when `placedIcon`, the text feature when `placedText`, each
with the ignore-placement flag of the bucket; none for a duplicate. -/
def insertedBy (bucket : SymbolBucket) (s s1 : SymbolInstance) : CollisionIndex :=
  if s.isDuplicate then []
  else
    (if s1.placedIcon then [(s.iconCollisionFeature, bucket.iconIgnorePlacement)] else []) ++
      (if s1.placedText then [(s.textCollisionFeature, bucket.textIgnorePlacement)] else [])

/-- The `insertFeature` calls that match the flags recorded on the candidates of a pass,
most recent first. -/
def insertedLog (bucket : SymbolBucket) : List SymbolInstance → List SymbolInstance →
    CollisionIndex
  | s :: rest, s1 :: rest1 => insertedLog bucket rest rest1 ++ insertedBy bucket s s1
  | _, _ => []

/-- A candidate without text geometry and without icon geometry, not a duplicate. -/
def emptyInstance : SymbolInstance :=
  { isDuplicate := false, placedTextIndices := [], placedIconIndices := [],
    textCollisionFeature := { boxes := [], alongLine := false },
    iconCollisionFeature := { boxes := [], alongLine := false },
    placedText := false, placedIcon := false, crossTileID := 0,
    hasText := false, hasIcon := false, glyphQuads := [], iconQuad := none }

/-- A duplicate candidate for the examples, with flags left from an earlier pass. -/
def duplicateInstance : SymbolInstance :=
  { sampleInstance 0 10 11 with isDuplicate := true, placedText := true }

/-! ## Lemmas on the maps and on the loops of `commit` -/

theorem IdMap.find_emplace {V : Type} (m : IdMap V) (key : Nat) (v : V) (k : Nat) :
    IdMap.find (IdMap.emplace m key v) k =
      (IdMap.find m k).or (if key = k then some v else none) := by
  unfold IdMap.emplace
  cases hk : IdMap.find m key with
  | some y =>
      simp only
      cases hm : IdMap.find m k with
      | some x => rfl
      | none =>
          by_cases h : key = k
          · subst h; rw [hk] at hm; cases hm
          · simp [h]
  | none =>
      simp only [IdMap.find]
      by_cases h : key = k
      · subst h; simp [hk]
      · simp only [h, if_false]
        cases IdMap.find m k <;> rfl

theorem IdMap.emplace_of_find_some {V : Type} (m : IdMap V) (key : Nat) (v x : V)
    (h : IdMap.find m key = some x) : IdMap.emplace m key v = m := by
  unfold IdMap.emplace
  rw [h]

/-- A loop that emplaces, for every entry of `l`, a value computed from the entry: the
resulting map keeps what it had and adds, for each new key, the value computed from the
first entry of `l` with that key. -/
theorem IdMap.find_foldl_emplace {α β : Type} (g : Nat → α → β) (l : IdMap α)
    (ops : IdMap β) (k : Nat) :
    IdMap.find (l.foldl (fun acc p => IdMap.emplace acc p.1 (g p.1 p.2)) ops) k =
      (IdMap.find ops k).or ((IdMap.find l k).map (g k)) := by
  induction l generalizing ops with
  | nil =>
      simp only [List.foldl_nil, IdMap.find, Option.map_none']
      cases IdMap.find ops k <;> rfl
  | cons p rest ih =>
      obtain ⟨key, a⟩ := p
      simp only [List.foldl_cons]
      rw [ih, IdMap.find_emplace]
      cases hm : IdMap.find ops k with
      | some x => rfl
      | none =>
          by_cases h : key = k
          · subst h; simp [IdMap.find]
          · simp [IdMap.find, h]

theorem commitCurrent_eq (prevOpacities : IdMap JointOpacityState) (increment : ℚ)
    (placements : IdMap PlacementPair) (opacities : IdMap JointOpacityState) :
    commitCurrent prevOpacities increment placements opacities =
      placements.foldl
        (fun acc p => IdMap.emplace acc p.1 (nextJointOpacity prevOpacities increment p.1 p.2))
        opacities := by
  unfold commitCurrent
  congr 1
  funext acc p
  unfold nextJointOpacity
  cases IdMap.find prevOpacities p.1 <;> rfl

/-- The loop over the predecessor's opacities changes nothing: its body runs only for
identifiers already in the new map, where `emplace` does not insert. -/
theorem commitPrevious_eq (prevOpacities : IdMap JointOpacityState) (increment : ℚ)
    (opacities : IdMap JointOpacityState) :
    commitPrevious prevOpacities increment opacities = opacities := by
  unfold commitPrevious
  induction prevOpacities with
  | nil => rfl
  | cons p rest ih =>
      simp only [List.foldl_cons]
      have hstep : (if (IdMap.find opacities p.1).isSome then
          (if (JointOpacityState.fromPrev p.2 increment 0 0).icon.opacity ≠
                (JointOpacityState.fromPrev p.2 increment 0 0).icon.targetOpacity ∨
              (JointOpacityState.fromPrev p.2 increment 0 0).text.opacity ≠
                (JointOpacityState.fromPrev p.2 increment 0 0).text.targetOpacity then
            IdMap.emplace opacities p.1 (JointOpacityState.fromPrev p.2 increment 0 0)
          else opacities)
        else opacities) = opacities := by
        cases hf : IdMap.find opacities p.1 with
        | none => simp
        | some x =>
            simp only [Option.isSome_some, if_true]
            split
            · exact IdMap.emplace_of_find_some _ _ _ x hf
            · rfl
      rw [hstep]
      exact ih

theorem find_commit_none (durationRatio : Int → Int → ℚ) (self : Placement) (now : Int)
    (k : Nat) :
    IdMap.find (Placement.commit durationRatio self none now).opacities k =
      (IdMap.find self.opacities k).or
        ((IdMap.find self.placements k).map
          (fun p => JointOpacityState.fromTargets (boolToFloat p.icon) (boolToFloat p.text))) := by
  simp only [Placement.commit, commitFresh]
  exact IdMap.find_foldl_emplace
    (fun _ p => JointOpacityState.fromTargets (boolToFloat p.icon) (boolToFloat p.text))
    self.placements self.opacities k

theorem find_commit_some (durationRatio : Int → Int → ℚ) (self prev : Placement) (now : Int)
    (k : Nat) :
    IdMap.find (Placement.commit durationRatio self (some prev) now).opacities k =
      (IdMap.find self.opacities k).or
        ((IdMap.find self.placements k).map
          (nextJointOpacity prev.opacities
            (durationRatio (now - prev.commitTime) symbolFadeDuration) k)) := by
  simp only [Placement.commit, commitPrevious_eq, commitCurrent_eq]
  exact IdMap.find_foldl_emplace _ self.placements self.opacities k

theorem OpacityState.fromPrev_opacity_range (prevState : OpacityState)
    (increment targetOpacity : ℚ) :
    0 ≤ (OpacityState.fromPrev prevState increment targetOpacity).opacity ∧
      (OpacityState.fromPrev prevState increment targetOpacity).opacity ≤ 1 := by
  simp only [OpacityState.fromPrev, fmax, fmin]
  constructor
  · exact le_max_left _ _
  · exact max_le (by norm_num) (min_le_left _ _)

/-! ## The opacity transition (claims C1, C8) -/

/-- C1: the constructor from a previous state does not move the previous current by the
increment.  At the previous state (current 1, target 0) with increment 0 the code yields
current 0 where the rule of the claim yields 1; at (current 1/2, target 1) with increment
1/4 the code yields 0 where the rule of the claim yields 1/4.  The previous current only
enters the comparison with 1. -/
theorem C1_fromPrev_drops_previous_current :
    (OpacityState.fromPrev { opacity := 1, targetOpacity := 0 } 0 0).opacity = 0 ∧
      specNextOpacity { opacity := 1, targetOpacity := 0 } 0 = 1 ∧
      (OpacityState.fromPrev { opacity := 1 / 2, targetOpacity := 1 } (1 / 4) 1).opacity = 0 ∧
      specNextOpacity { opacity := 1 / 2, targetOpacity := 1 } (1 / 4) = 1 / 4 := by
  refine ⟨?_, ?_, ?_, ?_⟩ <;> norm_num [OpacityState.fromPrev, specNextOpacity, fmax, fmin]

/-- C8: both constructors produce a current in `[0,1]`, whatever the previous state and the
increment, and every state stored by `commit` has both currents in `[0,1]` provided the
states already in the map before the commit (none, for a newly constructed Placement) do. -/
theorem C8_current_in_unit_interval :
    (∀ target : ℚ, 0 ≤ (OpacityState.fromTarget target).opacity ∧
        (OpacityState.fromTarget target).opacity ≤ 1) ∧
    (∀ (prevState : OpacityState) (increment target : ℚ),
        0 ≤ (OpacityState.fromPrev prevState increment target).opacity ∧
          (OpacityState.fromPrev prevState increment target).opacity ≤ 1) ∧
    (∀ (durationRatio : Int → Int → ℚ) (self : Placement) (prevPlacement : Option Placement)
        (now : Int),
        (∀ k j, IdMap.find self.opacities k = some j →
          (0 ≤ j.icon.opacity ∧ j.icon.opacity ≤ 1) ∧ (0 ≤ j.text.opacity ∧ j.text.opacity ≤ 1)) →
        ∀ k j, IdMap.find (Placement.commit durationRatio self prevPlacement now).opacities k
            = some j →
          (0 ≤ j.icon.opacity ∧ j.icon.opacity ≤ 1) ∧
            (0 ≤ j.text.opacity ∧ j.text.opacity ≤ 1)) := by
  refine ⟨?_, ?_, ?_⟩
  · intro target
    simp [OpacityState.fromTarget]
  · exact OpacityState.fromPrev_opacity_range
  · intro durationRatio self prevPlacement now hself k j hj
    have hfresh : ∀ a b : ℚ,
        (0 ≤ (JointOpacityState.fromTargets a b).icon.opacity ∧
          (JointOpacityState.fromTargets a b).icon.opacity ≤ 1) ∧
        (0 ≤ (JointOpacityState.fromTargets a b).text.opacity ∧
          (JointOpacityState.fromTargets a b).text.opacity ≤ 1) := by
      intro a b
      simp [JointOpacityState.fromTargets, OpacityState.fromTarget]
    cases prevPlacement with
    | none =>
        rw [find_commit_none] at hj
        cases hs : IdMap.find self.opacities k with
        | some x =>
            rw [hs] at hj
            simp only [Option.or_some, Option.some.injEq] at hj
            subst hj
            exact hself k x hs
        | none =>
            rw [hs] at hj
            cases hp : IdMap.find self.placements k with
            | none => rw [hp] at hj; simp at hj
            | some p =>
                rw [hp] at hj
                simp only [Option.map_some', Option.none_or, Option.some.injEq] at hj
                subst hj
                exact hfresh _ _
    | some prev =>
        rw [find_commit_some] at hj
        cases hs : IdMap.find self.opacities k with
        | some x =>
            rw [hs] at hj
            simp only [Option.or_some, Option.some.injEq] at hj
            subst hj
            exact hself k x hs
        | none =>
            rw [hs] at hj
            cases hp : IdMap.find self.placements k with
            | none => rw [hp] at hj; simp at hj
            | some p =>
                rw [hp] at hj
                simp only [Option.map_some', Option.none_or, Option.some.injEq] at hj
                subst hj
                unfold nextJointOpacity
                cases IdMap.find prev.opacities k with
                | none => exact hfresh _ _
                | some q =>
                    exact ⟨OpacityState.fromPrev_opacity_range _ _ _,
                      OpacityState.fromPrev_opacity_range _ _ _⟩

/-- C8 (witness): the third commit of a label that stays placed, started from an empty
opacity map, stores currents in `[0,1]` for label `1`. -/
theorem C8_current_in_unit_interval_witness :
    (∀ k j, IdMap.find framePlaced.opacities k = some j →
        (0 ≤ j.icon.opacity ∧ j.icon.opacity ≤ 1) ∧ (0 ≤ j.text.opacity ∧ j.text.opacity ≤ 1)) ∧
    (∀ k j, IdMap.find
          (Placement.commit exactRatio framePlaced (some (commitFirst exactRatio)) 150).opacities k
            = some j →
        (0 ≤ j.icon.opacity ∧ j.icon.opacity ≤ 1) ∧
          (0 ≤ j.text.opacity ∧ j.text.opacity ≤ 1)) :=
  ⟨by intro k j h; simp [framePlaced, IdMap.find] at h,
   C8_current_in_unit_interval.2.2 exactRatio framePlaced (some (commitFirst exactRatio)) 150
     (by intro k j h; simp [framePlaced, IdMap.find] at h)⟩

/-! ## Evaluation of the sample commits -/

theorem commitFirst_find (durationRatio : Int → Int → ℚ) :
    IdMap.find (commitFirst durationRatio).opacities 1 =
      some { icon := { opacity := 0, targetOpacity := 1 },
             text := { opacity := 0, targetOpacity := 1 } } := by
  rw [commitFirst, find_commit_none]
  simp [framePlaced, IdMap.find, JointOpacityState.fromTargets, OpacityState.fromTarget,
    boolToFloat]

theorem commitSecond_find (durationRatio : Int → Int → ℚ)
    (h : durationRatio 300 300 = 1) :
    IdMap.find (commitSecond durationRatio).opacities 1 =
      some { icon := { opacity := 1, targetOpacity := 1 },
             text := { opacity := 1, targetOpacity := 1 } } := by
  have ht : (commitFirst durationRatio).commitTime = 0 := rfl
  rw [commitSecond, find_commit_some, ht]
  have h0 : IdMap.find framePlaced.opacities 1 = none := rfl
  have h1 : IdMap.find framePlaced.placements 1 = some { text := true, icon := true } := rfl
  have h2 : durationRatio (300 - 0) symbolFadeDuration = 1 := h
  rw [h0, h1, h2]
  simp only [Option.none_or, Option.map_some', nextJointOpacity, commitFirst_find]
  norm_num [JointOpacityState.fromPrev, OpacityState.fromPrev, fmax, fmin, boolToFloat]

theorem commitThird_find (durationRatio : Int → Int → ℚ)
    (h : durationRatio 300 300 = 1) :
    IdMap.find (commitThird durationRatio).opacities 1 =
      some { icon := { opacity := 0, targetOpacity := 1 },
             text := { opacity := 0, targetOpacity := 1 } } := by
  have ht : (commitSecond durationRatio).commitTime = 300 := rfl
  rw [commitThird, find_commit_some, ht]
  have h0 : IdMap.find framePlaced.opacities 1 = none := rfl
  have h1 : IdMap.find framePlaced.placements 1 = some { text := true, icon := true } := rfl
  have h2 : durationRatio (600 - 300) symbolFadeDuration = 1 := h
  rw [h0, h1, h2]
  simp only [Option.none_or, Option.map_some', nextJointOpacity, commitSecond_find _ h]
  norm_num [JointOpacityState.fromPrev, OpacityState.fromPrev, fmax, fmin, boolToFloat]

theorem commitAgain_find (durationRatio : Int → Int → ℚ)
    (h : durationRatio 300 300 = 1) (h0 : durationRatio 0 300 = 0) :
    IdMap.find (commitAgain durationRatio).opacities 1 =
      some { icon := { opacity := 0, targetOpacity := 1 },
             text := { opacity := 0, targetOpacity := 1 } } := by
  have ht : (commitSecond durationRatio).commitTime = 300 := rfl
  rw [commitAgain, find_commit_some, ht]
  have h1 : IdMap.find framePlaced.opacities 1 = none := rfl
  have h2 : IdMap.find framePlaced.placements 1 = some { text := true, icon := true } := rfl
  have h3 : durationRatio (300 - 300) symbolFadeDuration = 0 := h0
  rw [h1, h2, h3]
  simp only [Option.none_or, Option.map_some', nextJointOpacity, commitSecond_find _ h]
  norm_num [JointOpacityState.fromPrev, OpacityState.fromPrev, fmax, fmin, boolToFloat]

theorem getOpacity_of_find (self : Placement) (k : Nat) (j : JointOpacityState)
    (h : IdMap.find self.opacities k = some j) : self.getOpacity k = j := by
  simp only [Placement.getOpacity, h]

theorem exactRatio_full : exactRatio 300 300 = 1 := by norm_num [exactRatio]

theorem exactRatio_zero : exactRatio 0 300 = 0 := by norm_num [exactRatio]

theorem truncRatio_full : truncRatio 300 300 = 1 := by
  have h : Int.tdiv 300 300 = 1 := by decide
  simp [truncRatio, h]

theorem truncRatio_zero : truncRatio 0 300 = 0 := by
  have h : Int.tdiv 0 300 = 0 := by decide
  simp [truncRatio, h]

/-! ## Commit (claims C2 to C7) -/

/-- C2: a label whose text and icon stay placed in every frame does not ease in.  With
commits at times 0, 300 and 600 (increments 1 and 1 under either reading of the duration
quotient) the text current is 0, then 1, then 0 again: it decreases from the second to the
third commit, and it is 0 although the accumulated increments are 2. -/
theorem C2_placed_label_opacity_drops :
    ((commitFirst exactRatio).getOpacity 1).text = { opacity := 0, targetOpacity := 1 } ∧
    ((commitSecond exactRatio).getOpacity 1).text = { opacity := 1, targetOpacity := 1 } ∧
    ((commitThird exactRatio).getOpacity 1).text = { opacity := 0, targetOpacity := 1 } ∧
    ((commitFirst truncRatio).getOpacity 1).text = { opacity := 0, targetOpacity := 1 } ∧
    ((commitSecond truncRatio).getOpacity 1).text = { opacity := 1, targetOpacity := 1 } ∧
    ((commitThird truncRatio).getOpacity 1).text = { opacity := 0, targetOpacity := 1 } := by
  refine ⟨?_, ?_, ?_, ?_, ?_, ?_⟩
  · rw [getOpacity_of_find _ _ _ (commitFirst_find exactRatio)]
  · rw [getOpacity_of_find _ _ _ (commitSecond_find exactRatio exactRatio_full)]
  · rw [getOpacity_of_find _ _ _ (commitThird_find exactRatio exactRatio_full)]
  · rw [getOpacity_of_find _ _ _ (commitFirst_find truncRatio)]
  · rw [getOpacity_of_find _ _ _ (commitSecond_find truncRatio truncRatio_full)]
  · rw [getOpacity_of_find _ _ _ (commitThird_find truncRatio truncRatio_full)]

/-- C3: an identifier of the predecessor that is absent from the current placement map is
not carried forward.  Label `7` with joint state (icon = (2/5, 1), text = (1/5, 1)) is in
no committed map after a commit of a frame without candidates, whatever the increment; the
query for it answers the hidden default. -/
theorem C3_absent_label_not_carried_forward (durationRatio : Int → Int → ℚ) (now : Int) :
    IdMap.find (Placement.commit durationRatio frameEmpty (some predecessorFading) now).opacities
        7 = none ∧
      (Placement.commit durationRatio frameEmpty (some predecessorFading) now).getOpacity 7 =
        { icon := { opacity := 0, targetOpacity := 0 },
          text := { opacity := 0, targetOpacity := 0 } } := by
  have h : IdMap.find
      (Placement.commit durationRatio frameEmpty (some predecessorFading) now).opacities 7
        = none := by
    rw [find_commit_some]
    simp [frameEmpty, IdMap.find]
  refine ⟨h, ?_⟩
  simp only [Placement.getOpacity, h]
  rfl

/-- C4: a first commit (no predecessor) on a Placement whose opacity map is empty stores,
for exactly the identifiers of the placement map, a state whose two currents are 0, whose
text target is 1 when the text was placed and 0 otherwise, and whose icon target is 1 when
the icon was placed and 0 otherwise. -/
theorem C4_first_commit (durationRatio : Int → Int → ℚ) (self : Placement) (now : Int)
    (hempty : self.opacities = []) (k : Nat) :
    IdMap.find (Placement.commit durationRatio self none now).opacities k =
      (IdMap.find self.placements k).map
        (fun p =>
          { icon := { opacity := 0, targetOpacity := if p.icon then 1 else 0 },
            text := { opacity := 0, targetOpacity := if p.text then 1 else 0 } }) := by
  rw [find_commit_none, hempty]
  simp only [IdMap.find, Option.none_or]
  rfl

/-- C4 (witness): the first commit of `frameTextShown`. -/
theorem C4_first_commit_witness :
    frameTextShown.opacities = [] ∧
      IdMap.find (Placement.commit exactRatio frameTextShown none 0).opacities 1 =
        (IdMap.find frameTextShown.placements 1).map
          (fun p =>
            { icon := { opacity := 0, targetOpacity := if p.icon then 1 else 0 },
              text := { opacity := 0, targetOpacity := if p.text then 1 else 0 } }) :=
  ⟨rfl, C4_first_commit exactRatio frameTextShown 0 rfl 1⟩

/-- C5: a commit with a predecessor stores, for every identifier `k` of the current
placement map (not yet in the opacity map of the Placement being committed, which is empty
before its commit), the transition of the predecessor's state of `k` with the new targets
when the predecessor has `k`, and the fresh state with both currents 0 otherwise. -/
theorem C5_subsequent_commit (durationRatio : Int → Int → ℚ) (self prev : Placement)
    (now : Int) (k : Nat) (pair : PlacementPair)
    (hfresh : IdMap.find self.opacities k = none)
    (hcur : IdMap.find self.placements k = some pair) :
    IdMap.find (Placement.commit durationRatio self (some prev) now).opacities k =
      some
        (match IdMap.find prev.opacities k with
         | some prevState =>
             JointOpacityState.fromPrev prevState
               (durationRatio (now - prev.commitTime) 300)
               (if pair.icon then 1 else 0) (if pair.text then 1 else 0)
         | none =>
             { icon := { opacity := 0, targetOpacity := if pair.icon then 1 else 0 },
               text := { opacity := 0, targetOpacity := if pair.text then 1 else 0 } }) := by
  rw [find_commit_some, hfresh, hcur]
  simp only [Option.none_or, Option.map_some', nextJointOpacity, symbolFadeDuration]
  cases IdMap.find prev.opacities k <;> rfl

/-- C5 (witness): the second commit of `framePlaced` against its first commit. -/
theorem C5_subsequent_commit_witness :
    IdMap.find framePlaced.opacities 1 = none ∧
      IdMap.find framePlaced.placements 1 = some { text := true, icon := true } ∧
      IdMap.find
          (Placement.commit exactRatio framePlaced (some (commitFirst exactRatio)) 150).opacities
          1 =
        some
          (match IdMap.find (commitFirst exactRatio).opacities 1 with
           | some prevState =>
               JointOpacityState.fromPrev prevState
                 (exactRatio (150 - (commitFirst exactRatio).commitTime) 300)
                 (if (PlacementPair.mk true true).icon then 1 else 0)
                 (if (PlacementPair.mk true true).text then 1 else 0)
           | none =>
               { icon := { opacity := 0,
                           targetOpacity := if (PlacementPair.mk true true).icon then 1 else 0 },
                 text := { opacity := 0,
                           targetOpacity :=
                             if (PlacementPair.mk true true).text then 1 else 0 } }) :=
  ⟨rfl, rfl,
    C5_subsequent_commit exactRatio framePlaced (commitFirst exactRatio) 150 1
      { text := true, icon := true } rfl rfl⟩

/-- C6: a commit with zero elapsed time changes currents.  Label `1` has text and icon
currents 1 after the second commit; committing the same placement map again at the same
time (increment 0 under either reading of the duration quotient) stores currents 0. -/
theorem C6_zero_increment_resets_current :
    exactRatio (300 - (commitSecond exactRatio).commitTime) symbolFadeDuration = 0 ∧
    ((commitSecond exactRatio).getOpacity 1).text.opacity = 1 ∧
    ((commitSecond exactRatio).getOpacity 1).icon.opacity = 1 ∧
    ((commitAgain exactRatio).getOpacity 1).text.opacity = 0 ∧
    ((commitAgain exactRatio).getOpacity 1).icon.opacity = 0 ∧
    truncRatio (300 - (commitSecond truncRatio).commitTime) symbolFadeDuration = 0 ∧
    ((commitSecond truncRatio).getOpacity 1).text.opacity = 1 ∧
    ((commitAgain truncRatio).getOpacity 1).text.opacity = 0 := by
  refine ⟨?_, ?_, ?_, ?_, ?_, ?_, ?_, ?_⟩
  · exact exactRatio_zero
  · rw [getOpacity_of_find _ _ _ (commitSecond_find exactRatio exactRatio_full)]
  · rw [getOpacity_of_find _ _ _ (commitSecond_find exactRatio exactRatio_full)]
  · rw [getOpacity_of_find _ _ _ (commitAgain_find exactRatio exactRatio_full exactRatio_zero)]
  · rw [getOpacity_of_find _ _ _ (commitAgain_find exactRatio exactRatio_full exactRatio_zero)]
  · exact truncRatio_zero
  · rw [getOpacity_of_find _ _ _ (commitSecond_find truncRatio truncRatio_full)]
  · rw [getOpacity_of_find _ _ _ (commitAgain_find truncRatio truncRatio_full truncRatio_zero)]

/-- C7 (counterexample): label `1` has the committed text state (0, 1) after a first commit
in which its text was placed; its text is not placed in the next frame, committed 300 ticks
later with increment 1; the stored text state is not (0, 0) and the text channel is not
hidden. -/
theorem C7_counterexample :
    ((Placement.commit exactRatio frameTextShown none 0).getOpacity 1).text =
        { opacity := 0, targetOpacity := 1 } ∧
      IdMap.find frameTextRejected.placements 1 = some { text := false, icon := false } ∧
      exactRatio (300 - (Placement.commit exactRatio frameTextShown none 0).commitTime)
        symbolFadeDuration = 1 ∧
      ((Placement.commit exactRatio frameTextRejected
          (some (Placement.commit exactRatio frameTextShown none 0)) 300).getOpacity 1).text ≠
        { opacity := 0, targetOpacity := 0 } ∧
      ((Placement.commit exactRatio frameTextRejected
          (some (Placement.commit exactRatio frameTextShown none 0)) 300).getOpacity
            1).text.isHidden = false := by
  refine ⟨?_, ?_, ?_, ?_, ?_⟩ <;>
    norm_num [frameTextShown, frameTextRejected, Placement.commit, Placement.getOpacity,
      commitFresh, commitCurrent, commitPrevious, IdMap.emplace, IdMap.find,
      JointOpacityState.fromPrev, JointOpacityState.fromTargets, OpacityState.fromPrev,
      OpacityState.fromTarget, OpacityState.isHidden, fmax, fmin, boolToFloat, exactRatio,
      symbolFadeDuration]

/-- C7 (amended): for a label whose committed text state in the predecessor is (current 0,
target 1) and whose text is not placed in the current placement map, a commit with
increment 1 stores the text state (current 1, target 0); the text channel is not hidden. -/
theorem C7_fade_out_first_step (durationRatio : Int → Int → ℚ) (self prev : Placement)
    (now : Int) (k : Nat) (pair : PlacementPair) (prevState : JointOpacityState)
    (hfresh : IdMap.find self.opacities k = none)
    (hcur : IdMap.find self.placements k = some pair)
    (hnot : pair.text = false)
    (hprev : IdMap.find prev.opacities k = some prevState)
    (htext : prevState.text = { opacity := 0, targetOpacity := 1 })
    (hinc : durationRatio (now - prev.commitTime) symbolFadeDuration = 1) :
    ((Placement.commit durationRatio self (some prev) now).getOpacity k).text =
        { opacity := 1, targetOpacity := 0 } ∧
      ((Placement.commit durationRatio self (some prev) now).getOpacity k).text.isHidden
        = false := by
  have h := find_commit_some durationRatio self prev now k
  rw [hfresh, hcur, hinc] at h
  simp only [Option.none_or, Option.map_some', nextJointOpacity, hprev] at h
  simp only [Placement.getOpacity, h, JointOpacityState.fromPrev, OpacityState.fromPrev, htext,
    hnot, boolToFloat, OpacityState.isHidden, fmax, fmin]
  norm_num

/-- C7 (witness): the scenario of the specification, first commit at time 0 and second
commit 300 ticks later. -/
theorem C7_fade_out_first_step_witness :
    ((Placement.commit exactRatio frameTextRejected
        (some (Placement.commit exactRatio frameTextShown none 0)) 300).getOpacity 1).text =
        { opacity := 1, targetOpacity := 0 } ∧
      ((Placement.commit exactRatio frameTextRejected
        (some (Placement.commit exactRatio frameTextShown none 0)) 300).getOpacity
          1).text.isHidden = false :=
  C7_fade_out_first_step exactRatio frameTextRejected
    (Placement.commit exactRatio frameTextShown none 0) 300 1
    { text := false, icon := false }
    { icon := { opacity := 0, targetOpacity := 0 }, text := { opacity := 0, targetOpacity := 1 } }
    rfl rfl rfl
    (by norm_num [frameTextShown, Placement.commit, commitFresh, IdMap.emplace, IdMap.find,
      JointOpacityState.fromTargets, OpacityState.fromTarget, boolToFloat])
    rfl
    (by norm_num [frameTextShown, Placement.commit, exactRatio, symbolFadeDuration])

/-! ## The placement pass -/

theorem combinePlacements_coupled (t i : Bool) :
    combinePlacements false false t i = (t && i, t && i) := rfl

theorem recordPlacement_find_mono (bucket : SymbolBucket) (self : Placement)
    (s : SymbolInstance) (t i : Bool) (k : Nat) (x : PlacementPair)
    (h : IdMap.find self.placements k = some x) :
    IdMap.find (recordPlacement bucket self s t i).1.placements k = some x := by
  simp only [recordPlacement, IdMap.find_emplace, h, Option.or_some]

/-- The two ways the loop body returns: untouched for a duplicate, or `recordPlacement`
applied to the two raw answers. -/
theorem placeSymbolInstance_inv {env : Collaborators} {bucket : SymbolBucket}
    {pm tm im : Mat4} {scale : ℚ} {scb : Bool} {p p1 : Placement} {s s1 : SymbolInstance}
    (h : placeSymbolInstance env bucket pm tm im scale scb p s = some (p1, s1)) :
    (s.isDuplicate = true ∧ p1 = p ∧ s1 = s) ∨
      (s.isDuplicate = false ∧ ∃ t i,
        rawPlaceText env bucket pm tm scale scb p s = some t ∧
        rawPlaceIcon env bucket pm im scale scb p s = some i ∧
        p1 = (recordPlacement bucket p s t i).1 ∧ s1 = (recordPlacement bucket p s t i).2) := by
  unfold placeSymbolInstance at h
  cases hdup : s.isDuplicate with
  | true =>
      rw [hdup] at h
      simp only [if_true, Option.some.injEq, Prod.mk.injEq] at h
      exact Or.inl ⟨rfl, h.1.symm, h.2.symm⟩
  | false =>
      rw [hdup] at h
      simp only [Bool.false_eq_true, if_false] at h
      cases ht : rawPlaceText env bucket pm tm scale scb p s with
      | none => rw [ht] at h; cases h
      | some t =>
          rw [ht] at h
          simp only at h
          cases hi : rawPlaceIcon env bucket pm im scale scb p s with
          | none => rw [hi] at h; cases h
          | some i =>
              rw [hi] at h
              simp only [Option.some.injEq] at h
              exact Or.inr ⟨rfl, t, i, rfl, rfl, by rw [h], by rw [h]⟩

theorem placeSymbolInstance_find_mono {env : Collaborators} {bucket : SymbolBucket}
    {pm tm im : Mat4} {scale : ℚ} {scb : Bool} {p p1 : Placement} {s s1 : SymbolInstance}
    (h : placeSymbolInstance env bucket pm tm im scale scb p s = some (p1, s1))
    (k : Nat) (x : PlacementPair) (hk : IdMap.find p.placements k = some x) :
    IdMap.find p1.placements k = some x := by
  unfold placeSymbolInstance at h
  split at h
  · cases h; exact hk
  · split at h
    · cases h
    · split at h
      · cases h
      · cases h
        exact recordPlacement_find_mono _ _ _ _ _ _ _ hk

theorem placeSymbolInstances_find_mono {env : Collaborators} {bucket : SymbolBucket}
    {pm tm im : Mat4} {scale : ℚ} {scb : Bool} (l : List SymbolInstance) :
    ∀ {p p1 : Placement} {l1 : List SymbolInstance},
      placeSymbolInstances env bucket pm tm im scale scb p l = some (p1, l1) →
      ∀ (k : Nat) (x : PlacementPair), IdMap.find p.placements k = some x →
        IdMap.find p1.placements k = some x := by
  induction l with
  | nil =>
      intro p p1 l1 h k x hk
      simp only [placeSymbolInstances] at h
      cases h
      exact hk
  | cons s rest ih =>
      intro p p1 l1 h k x hk
      simp only [placeSymbolInstances] at h
      cases hs : placeSymbolInstance env bucket pm tm im scale scb p s with
      | none => rw [hs] at h; cases h
      | some r =>
          obtain ⟨q, s1⟩ := r
          rw [hs] at h
          simp only at h
          cases hr : placeSymbolInstances env bucket pm tm im scale scb q rest with
          | none => rw [hr] at h; cases h
          | some r2 =>
              obtain ⟨q2, rest2⟩ := r2
              rw [hr] at h
              cases h
              exact ih hr k x (placeSymbolInstance_find_mono hs k x hk)

/-- Every candidate of the result of the loop comes from one run of the loop body, at some
state of the Placement, and the entries of the placement map after that run are still there
at the end of the loop. -/
theorem placeSymbolInstances_forall₂ {env : Collaborators} {bucket : SymbolBucket}
    {pm tm im : Mat4} {scale : ℚ} {scb : Bool} (l : List SymbolInstance) :
    ∀ {p p1 : Placement} {l1 : List SymbolInstance},
      placeSymbolInstances env bucket pm tm im scale scb p l = some (p1, l1) →
      List.Forall₂
        (fun s s1 => ∃ q q1, placeSymbolInstance env bucket pm tm im scale scb q s = some (q1, s1) ∧
          ∀ (k : Nat) (x : PlacementPair), IdMap.find q1.placements k = some x →
            IdMap.find p1.placements k = some x)
        l l1 := by
  induction l with
  | nil =>
      intro p p1 l1 h
      simp only [placeSymbolInstances] at h
      cases h
      exact List.Forall₂.nil
  | cons s rest ih =>
      intro p p1 l1 h
      simp only [placeSymbolInstances] at h
      cases hs : placeSymbolInstance env bucket pm tm im scale scb p s with
      | none => rw [hs] at h; cases h
      | some r =>
          obtain ⟨q, s1⟩ := r
          rw [hs] at h
          simp only at h
          cases hr : placeSymbolInstances env bucket pm tm im scale scb q rest with
          | none => rw [hr] at h; cases h
          | some r2 =>
              obtain ⟨q2, rest2⟩ := r2
              rw [hr] at h
              cases h
              exact List.Forall₂.cons
                ⟨p, q, hs, fun k x hk => placeSymbolInstances_find_mono rest hr k x hk⟩
                (ih hr)

/-- The loop body on a candidate that is not a duplicate, when neither half can stand
alone. -/
theorem placeSymbolInstance_coupled {env : Collaborators} {bucket : SymbolBucket}
    {pm tm im : Mat4} {scale : ℚ} {scb : Bool} {q q1 : Placement} {s s1 : SymbolInstance}
    (h : placeSymbolInstance env bucket pm tm im scale scb q s = some (q1, s1))
    (hdup : s.isDuplicate = false)
    (hicon : (!bucket.hasTextData || bucket.textOptional) = false)
    (htext : (!bucket.hasIconData || bucket.iconOptional) = false) :
    ∃ t i, rawPlaceText env bucket pm tm scale scb q s = some t ∧
      rawPlaceIcon env bucket pm im scale scb q s = some i ∧
      s1.placedText = (t && i) ∧ s1.placedIcon = (t && i) ∧
      IdMap.find q1.placements s1.crossTileID =
        (IdMap.find q.placements s1.crossTileID).or (some { text := t && i, icon := t && i }) := by
  unfold placeSymbolInstance at h
  rw [hdup] at h
  simp only [Bool.false_eq_true, if_false] at h
  cases ht : rawPlaceText env bucket pm tm scale scb q s with
  | none => rw [ht] at h; cases h
  | some t =>
      rw [ht] at h
      simp only at h
      cases hi : rawPlaceIcon env bucket pm im scale scb q s with
      | none => rw [hi] at h; cases h
      | some i =>
          rw [hi] at h
          simp only [Option.some.injEq] at h
          refine ⟨t, i, rfl, rfl, ?_⟩
          have hq : q1 = (recordPlacement bucket q s t i).1 := by rw [h]
          have hs : s1 = (recordPlacement bucket q s t i).2 := by rw [h]
          subst hq hs
          simp only [recordPlacement, hicon, htext, combinePlacements_coupled,
            IdMap.find_emplace, if_true]
          exact ⟨trivial, trivial, trivial⟩

/-! ## The pass returns when the placed-symbol indices are in range -/

theorem rawPlaceText_isSome (env : Collaborators) (bucket : SymbolBucket) (pm tm : Mat4)
    (scale : ℚ) (scb : Bool) (p : Placement) (s : SymbolInstance)
    (h : (match s.placedTextIndices with
          | [] => true
          | index :: _ => decide (index < bucket.textPlacedSymbols.length)) = true) :
    ∃ t, rawPlaceText env bucket pm tm scale scb p s = some t := by
  unfold rawPlaceText
  cases hl : s.placedTextIndices with
  | nil => exact ⟨false, by simp⟩
  | cons index rest =>
      rw [hl] at h
      simp only [decide_eq_true_eq] at h
      simp [List.getElem?_eq_getElem h]

theorem rawPlaceIcon_isSome (env : Collaborators) (bucket : SymbolBucket) (pm im : Mat4)
    (scale : ℚ) (scb : Bool) (p : Placement) (s : SymbolInstance)
    (h : (match s.placedIconIndices with
          | [] => true
          | index :: _ => decide (index < bucket.iconPlacedSymbols.length)) = true) :
    ∃ i, rawPlaceIcon env bucket pm im scale scb p s = some i := by
  unfold rawPlaceIcon
  cases hl : s.placedIconIndices with
  | nil => exact ⟨false, by simp⟩
  | cons index rest =>
      rw [hl] at h
      simp only [decide_eq_true_eq] at h
      simp [List.getElem?_eq_getElem h]

theorem placeSymbolInstance_isSome (env : Collaborators) (bucket : SymbolBucket)
    (pm tm im : Mat4) (scale : ℚ) (scb : Bool) (p : Placement) (s : SymbolInstance)
    (h : indicesInRange bucket s = true) :
    ∃ r, placeSymbolInstance env bucket pm tm im scale scb p s = some r := by
  unfold placeSymbolInstance
  cases hdup : s.isDuplicate with
  | true => simp
  | false =>
      simp only [indicesInRange, hdup, Bool.false_or, Bool.and_eq_true] at h
      obtain ⟨t, ht⟩ := rawPlaceText_isSome env bucket pm tm scale scb p s h.1
      obtain ⟨i, hi⟩ := rawPlaceIcon_isSome env bucket pm im scale scb p s h.2
      simp [ht, hi]

theorem placeSymbolInstances_isSome (env : Collaborators) (bucket : SymbolBucket)
    (pm tm im : Mat4) (scale : ℚ) (scb : Bool) (l : List SymbolInstance) :
    ∀ (p : Placement), l.all (indicesInRange bucket) = true →
      ∃ r, placeSymbolInstances env bucket pm tm im scale scb p l = some r := by
  induction l with
  | nil => intro p _; exact ⟨_, rfl⟩
  | cons s rest ih =>
      intro p h
      simp only [List.all_cons, Bool.and_eq_true] at h
      obtain ⟨⟨q, s1⟩, hs⟩ := placeSymbolInstance_isSome env bucket pm tm im scale scb p s h.1
      obtain ⟨⟨q2, rest2⟩, hr⟩ := ih q h.2
      simp [placeSymbolInstances, hs, hr]

theorem placeLayerBucket_isSome (env : Collaborators) (p : Placement) (bucket : SymbolBucket)
    (pm tm im : Mat4) (scale : ℚ) (scb : Bool) (h : bucketInRange bucket = true) :
    ∃ r, Placement.placeLayerBucket env p bucket pm tm im scale scb = some r := by
  obtain ⟨⟨q, l1⟩, hl⟩ :=
    placeSymbolInstances_isSome env bucket pm tm im scale scb bucket.symbolInstances p h
  simp [Placement.placeLayerBucket, hl]

theorem placeLayer_isSome (env : Collaborators) (scb : Bool) (tiles : List RenderTile) :
    ∀ (p : Placement), tilesInRange tiles = true →
      ∃ r, Placement.placeLayer env scb p tiles = some r := by
  induction tiles with
  | nil => intro p _; exact ⟨_, rfl⟩
  | cons t rest ih =>
      intro p h
      simp only [tilesInRange, List.all_cons, Bool.and_eq_true] at h
      have hrest : tilesInRange rest = true := h.2
      cases hren : t.renderable with
      | false =>
          obtain ⟨⟨q, rest2⟩, hr⟩ := ih p hrest
          simp [Placement.placeLayer, hren, hr]
      | true =>
          have hb : bucketInRange t.bucket = true := by
            have h1 := h.1
            rw [hren] at h1
            simpa using h1
          obtain ⟨⟨q, b1⟩, hq⟩ := placeLayerBucket_isSome env p t.bucket t.matrix
            (env.getLabelPlaneMatrix t.matrix t.bucket.textPitchAlignmentMap
              t.bucket.textRotationAlignmentMap (env.pixelsToTileUnits t))
            (env.getLabelPlaneMatrix t.matrix t.bucket.iconPitchAlignmentMap
              t.bucket.iconRotationAlignmentMap (env.pixelsToTileUnits t))
            (env.tileScale t.canonicalZ) scb hb
          obtain ⟨⟨q2, rest2⟩, hr⟩ := ih q hrest
          simp [Placement.placeLayer, hren, hq, hr]

/-- C9 (counterexample): in a bucket where neither half can stand alone, processed by a new
Placement, the second candidate is not a duplicate, its raw answers are text accepted and
icon rejected, its recorded flags are both false, it receives identifier 1, and the
placement map holds (text placed, icon placed) for identifier 1: the entry of the first
candidate, which already held identifier 1. -/
theorem C9_counterexample :
    (!coupledBucket.hasTextData || coupledBucket.textOptional) = false ∧
    (!coupledBucket.hasIconData || coupledBucket.iconOptional) = false ∧
    (Placement.placeLayerBucket sampleCollaborators (Placement.new 0) coupledBucket [] [] [] 1
        false).map
      (fun r =>
        (r.2.symbolInstances.map
          (fun s => (s.isDuplicate, s.crossTileID, s.placedText, s.placedIcon)),
         IdMap.find r.1.placements 1)) =
      some ([(false, 1, true, true), (false, 1, false, false)],
        some { text := true, icon := true }) ∧
    (placeSymbolInstance sampleCollaborators coupledBucket [] [] [] 1 false (Placement.new 0)
        (sampleInstance 1 10 11)).map
      (fun r =>
        (rawPlaceText sampleCollaborators coupledBucket [] [] 1 false r.1
            (sampleInstance 0 12 11),
         rawPlaceIcon sampleCollaborators coupledBucket [] [] 1 false r.1
            (sampleInstance 0 12 11))) =
      some (some true, some false) := by
  refine ⟨rfl, rfl, rfl, rfl⟩

/-! ## Identifier assignment -/

/-- Replacing an unassigned identifier by a value above every identifier of the list keeps
the non-zero identifiers distinct. -/
theorem UniqueNonZero_assign (pre post : List Nat) (m : Nat)
    (hu : UniqueNonZero (pre ++ 0 :: post))
    (hle : ∀ i ∈ pre ++ 0 :: post, i ≤ m) :
    UniqueNonZero (pre ++ (m + 1) :: post) := by
  unfold UniqueNonZero at hu ⊢
  simp only [List.filter_append, List.filter_cons, ne_eq, not_true_eq_false, decide_False,
    Bool.false_eq_true, if_false] at hu
  have hm : decide (m + 1 ≠ 0) = true := by simp
  simp only [List.filter_append, List.filter_cons, hm, if_true]
  rw [List.nodup_middle, List.nodup_cons]
  refine ⟨?_, hu⟩
  intro hmem
  rw [List.mem_append] at hmem
  have hbound : m + 1 ≤ m := by
    rcases hmem with h | h
    · exact hle _ (List.mem_append_left _ (List.mem_of_mem_filter h))
    · exact hle _ (List.mem_append_right _ (List.mem_cons_of_mem _ (List.mem_of_mem_filter h)))
  omega

/-- The effect of the loop body on the identifier of the candidate and on the counter. -/
theorem placeSymbolInstance_ids {env : Collaborators} {bucket : SymbolBucket}
    {pm tm im : Mat4} {scale : ℚ} {scb : Bool} {p p1 : Placement} {s s1 : SymbolInstance}
    (h : placeSymbolInstance env bucket pm tm im scale scb p s = some (p1, s1)) :
    (s1.crossTileID = s.crossTileID ∧ p1.maxCrossTileID = p.maxCrossTileID) ∨
      (s.crossTileID = 0 ∧ s1.crossTileID = (p.maxCrossTileID + 1) % 2 ^ 32 ∧
        p1.maxCrossTileID = (p.maxCrossTileID + 1) % 2 ^ 32) := by
  rcases placeSymbolInstance_inv h with ⟨_, hp, hs⟩ | ⟨_, t, i, _, _, hp, hs⟩
  · subst hp hs
    exact Or.inl ⟨rfl, rfl⟩
  · subst hp hs
    by_cases h0 : s.crossTileID = 0
    · right
      simp [recordPlacement, h0]
    · left
      simp [recordPlacement, h0]

/-- The loop of `placeLayerBucket` keeps the non-zero identifiers of the candidates (those
of the bucket and those outside it, `pre` and `post`) distinct and at most the counter, as
long as the counter cannot wrap. -/
theorem placeSymbolInstances_ids {env : Collaborators} {bucket : SymbolBucket}
    {pm tm im : Mat4} {scale : ℚ} {scb : Bool} (l : List SymbolInstance) :
    ∀ {p p1 : Placement} {l1 : List SymbolInstance} (pre post : List Nat),
      placeSymbolInstances env bucket pm tm im scale scb p l = some (p1, l1) →
      UniqueNonZero (pre ++ (l.map (fun s => s.crossTileID) ++ post)) →
      (∀ i ∈ pre ++ (l.map (fun s => s.crossTileID) ++ post), i ≤ p.maxCrossTileID) →
      p.maxCrossTileID + l.length < 2 ^ 32 →
      UniqueNonZero (pre ++ (l1.map (fun s => s.crossTileID) ++ post)) ∧
        (∀ i ∈ pre ++ (l1.map (fun s => s.crossTileID) ++ post), i ≤ p1.maxCrossTileID) ∧
        p.maxCrossTileID ≤ p1.maxCrossTileID ∧
        p1.maxCrossTileID ≤ p.maxCrossTileID + l.length := by
  induction l with
  | nil =>
      intro p p1 l1 pre post h hu hle _
      simp only [placeSymbolInstances] at h
      cases h
      exact ⟨hu, hle, le_refl _, by simp⟩
  | cons s rest ih =>
      intro p p1 l1 pre post h hu hle hlt
      simp only [placeSymbolInstances] at h
      cases hs : placeSymbolInstance env bucket pm tm im scale scb p s with
      | none => rw [hs] at h; cases h
      | some r =>
          obtain ⟨q, s1⟩ := r
          rw [hs] at h
          simp only at h
          cases hr : placeSymbolInstances env bucket pm tm im scale scb q rest with
          | none => rw [hr] at h; cases h
          | some r2 =>
              obtain ⟨q2, rest2⟩ := r2
              rw [hr] at h
              cases h
              simp only [List.map_cons, List.cons_append, List.length_cons] at hu hle hlt ⊢
              have hstep :
                  UniqueNonZero (pre ++ s1.crossTileID ::
                      (rest.map (fun s => s.crossTileID) ++ post)) ∧
                    (∀ i ∈ pre ++ s1.crossTileID ::
                      (rest.map (fun s => s.crossTileID) ++ post), i ≤ q.maxCrossTileID) ∧
                    p.maxCrossTileID ≤ q.maxCrossTileID ∧
                    q.maxCrossTileID ≤ p.maxCrossTileID + 1 := by
                rcases placeSymbolInstance_ids hs with ⟨h1, h2⟩ | ⟨h0, h1, h2⟩
                · rw [h1, h2]
                  exact ⟨hu, hle, le_refl _, Nat.le_succ _⟩
                · have hmod : (p.maxCrossTileID + 1) % 2 ^ 32 = p.maxCrossTileID + 1 :=
                    Nat.mod_eq_of_lt (by omega)
                  rw [hmod] at h1 h2
                  rw [h0] at hu hle
                  rw [h1, h2]
                  refine ⟨UniqueNonZero_assign _ _ _ hu hle, ?_, Nat.le_succ _, le_refl _⟩
                  intro i hi
                  rw [List.mem_append, List.mem_cons] at hi
                  rcases hi with hi | hi | hi
                  · exact Nat.le_succ_of_le (hle i (List.mem_append_left _ hi))
                  · rw [hi]
                  · exact Nat.le_succ_of_le
                      (hle i (List.mem_append_right _ (List.mem_cons_of_mem _ hi)))
              obtain ⟨hu1, hle1, hmono, hup⟩ := hstep
              have hu2 : UniqueNonZero ((pre ++ [s1.crossTileID]) ++
                  (rest.map (fun s => s.crossTileID) ++ post)) := by
                simpa [List.append_assoc] using hu1
              have hle2 : ∀ i ∈ (pre ++ [s1.crossTileID]) ++
                  (rest.map (fun s => s.crossTileID) ++ post), i ≤ q.maxCrossTileID := by
                simpa [List.append_assoc] using hle1
              obtain ⟨hu3, hle3, hmono3, hup3⟩ :=
                ih (pre ++ [s1.crossTileID]) post hr hu2 hle2 (by omega)
              refine ⟨?_, ?_, by omega, by omega⟩
              · simpa [List.append_assoc] using hu3
              · simpa [List.append_assoc] using hle3

theorem crossTileIDs_cons (t : RenderTile) (rest : List RenderTile) :
    crossTileIDs (t :: rest) =
      t.bucket.symbolInstances.map (fun s => s.crossTileID) ++ crossTileIDs rest := by
  simp [crossTileIDs]

/-- The pass over the tiles of a layer keeps the non-zero identifiers distinct and at most
the counter, as long as the counter cannot wrap. -/
theorem placeLayer_ids {env : Collaborators} {scb : Bool} (tiles : List RenderTile) :
    ∀ {p p1 : Placement} {tiles1 : List RenderTile} (pre : List Nat),
      Placement.placeLayer env scb p tiles = some (p1, tiles1) →
      UniqueNonZero (pre ++ crossTileIDs tiles) →
      (∀ i ∈ pre ++ crossTileIDs tiles, i ≤ p.maxCrossTileID) →
      p.maxCrossTileID + (crossTileIDs tiles).length < 2 ^ 32 →
      UniqueNonZero (pre ++ crossTileIDs tiles1) ∧
        (∀ i ∈ pre ++ crossTileIDs tiles1, i ≤ p1.maxCrossTileID) ∧
        p.maxCrossTileID ≤ p1.maxCrossTileID := by
  induction tiles with
  | nil =>
      intro p p1 tiles1 pre h hu hle _
      simp only [Placement.placeLayer] at h
      cases h
      exact ⟨hu, hle, le_refl _⟩
  | cons t rest ih =>
      intro p p1 tiles1 pre h hu hle hlt
      rw [crossTileIDs_cons] at hu hle hlt
      rw [List.length_append, List.length_map] at hlt
      simp only [Placement.placeLayer] at h
      cases hren : t.renderable with
      | false =>
          rw [hren] at h
          simp only [Bool.not_false, if_true] at h
          cases hr : Placement.placeLayer env scb p rest with
          | none => rw [hr] at h; cases h
          | some r =>
              obtain ⟨q, rest2⟩ := r
              rw [hr] at h
              cases h
              rw [crossTileIDs_cons]
              have hu2 : UniqueNonZero
                  ((pre ++ t.bucket.symbolInstances.map (fun s => s.crossTileID)) ++
                    crossTileIDs rest) := by
                simpa [List.append_assoc] using hu
              have hle2 : ∀ i ∈ (pre ++ t.bucket.symbolInstances.map (fun s => s.crossTileID)) ++
                  crossTileIDs rest, i ≤ p.maxCrossTileID := by
                simpa [List.append_assoc] using hle
              obtain ⟨hu3, hle3, hmono⟩ := ih _ hr hu2 hle2 (by omega)
              refine ⟨?_, ?_, hmono⟩
              · simpa [List.append_assoc] using hu3
              · simpa [List.append_assoc] using hle3
      | true =>
          rw [hren] at h
          simp only [Bool.not_true, Bool.false_eq_true, if_false] at h
          generalize env.getLabelPlaneMatrix t.matrix t.bucket.textPitchAlignmentMap
            t.bucket.textRotationAlignmentMap (env.pixelsToTileUnits t) = tm at h
          generalize env.getLabelPlaneMatrix t.matrix t.bucket.iconPitchAlignmentMap
            t.bucket.iconRotationAlignmentMap (env.pixelsToTileUnits t) = im at h
          unfold Placement.placeLayerBucket at h
          cases hl : placeSymbolInstances env t.bucket t.matrix tm im
              (env.tileScale t.canonicalZ) scb p t.bucket.symbolInstances with
          | none => rw [hl] at h; cases h
          | some r =>
              obtain ⟨q, l1⟩ := r
              rw [hl] at h
              simp only at h
              cases hr : Placement.placeLayer env scb q rest with
              | none => rw [hr] at h; cases h
              | some r2 =>
                  obtain ⟨q2, rest2⟩ := r2
                  rw [hr] at h
                  cases h
                  rw [crossTileIDs_cons]
                  obtain ⟨hu1, hle1, hmono1, hup1⟩ :=
                    placeSymbolInstances_ids t.bucket.symbolInstances pre (crossTileIDs rest)
                      hl hu hle (by omega)
                  have hu2 : UniqueNonZero
                      ((pre ++ l1.map (fun s => s.crossTileID)) ++ crossTileIDs rest) := by
                    simpa [List.append_assoc] using hu1
                  have hle2 : ∀ i ∈ (pre ++ l1.map (fun s => s.crossTileID)) ++
                      crossTileIDs rest, i ≤ q.maxCrossTileID := by
                    simpa [List.append_assoc] using hle1
                  obtain ⟨hu3, hle3, hmono3⟩ := ih _ hr hu2 hle2 (by omega)
                  refine ⟨?_, ?_, by omega⟩
                  · simpa [List.append_assoc] using hu3
                  · simpa [List.append_assoc] using hle3

/-- C10 (counterexample): two frames, each with a new Placement that runs `placeLayer` and
is committed against its predecessor.  The candidate of the first tile receives identifier
1 in the first frame; the new candidate of the second tile receives identifier 1 in the
second frame: two distinct candidates hold the same non-zero identifier. -/
theorem C10_counterexample :
    frameOne.map (fun r => crossTileIDs r.2) = some [1] ∧
      frameTwo.map (fun r => crossTileIDs r.2) = some [1, 1] ∧
      frameTwo.map (fun r => r.2.map (fun t => t.bucket.symbolInstances.map
        (fun s => (s.isDuplicate, s.textCollisionFeature.boxes.map (fun b => b.extent))))) =
        some [[(false, [10])], [(false, [20])]] ∧
      ¬ UniqueNonZero [1, 1] := by
  refine ⟨rfl, rfl, rfl, by decide⟩

/-- C10 (amended): when `placeLayer` runs on a Placement whose counter is at least every
identifier held by a candidate of the layer, and the counter cannot wrap past `2 ^ 32`
during the pass (the placed-symbol indices being in range), the pass returns, non-zero
identifiers that were pairwise distinct before the pass are pairwise distinct after it,
every identifier is at most the counter, and the counter has not decreased; so the same
holds for the next pass on the same Placement.  Nothing is said across Placements: a new
Placement does not start from the counter of its predecessor. -/
theorem C10_unique_within_placement (env : Collaborators) (scb : Bool)
    (self : Placement) (tiles : List RenderTile)
    (hrange : tilesInRange tiles = true)
    (hunique : UniqueNonZero (crossTileIDs tiles))
    (hbound : ∀ i ∈ crossTileIDs tiles, i ≤ self.maxCrossTileID)
    (hwrap : self.maxCrossTileID + (crossTileIDs tiles).length < 2 ^ 32) :
    ∃ (self1 : Placement) (tiles1 : List RenderTile),
      Placement.placeLayer env scb self tiles = some (self1, tiles1) ∧
      UniqueNonZero (crossTileIDs tiles1) ∧
      (∀ i ∈ crossTileIDs tiles1, i ≤ self1.maxCrossTileID) ∧
      self.maxCrossTileID ≤ self1.maxCrossTileID := by
  obtain ⟨⟨self1, tiles1⟩, hrun⟩ := placeLayer_isSome env scb tiles self hrange
  have h := placeLayer_ids tiles [] hrun (by simpa using hunique) (by simpa using hbound) hwrap
  exact ⟨self1, tiles1, hrun, by simpa using h⟩

/-- C10 (witness): a Placement whose counter is 1 places a layer of two tiles, the first
holding a candidate with identifier 1 and the second a new candidate. -/
theorem C10_unique_within_placement_witness :
    tilesInRange [sampleTile (sampleBucket [sampleInstance 1 10 11]),
        sampleTile (sampleBucket [sampleInstance 0 20 21])] = true ∧
      UniqueNonZero
        (crossTileIDs [sampleTile (sampleBucket [sampleInstance 1 10 11]),
          sampleTile (sampleBucket [sampleInstance 0 20 21])]) ∧
      ∃ (self1 : Placement) (tiles1 : List RenderTile),
        Placement.placeLayer sampleCollaborators false (Placement.new 1)
            [sampleTile (sampleBucket [sampleInstance 1 10 11]),
              sampleTile (sampleBucket [sampleInstance 0 20 21])] = some (self1, tiles1) ∧
          UniqueNonZero (crossTileIDs tiles1) ∧
          (∀ i ∈ crossTileIDs tiles1, i ≤ self1.maxCrossTileID) ∧
          (Placement.new 1).maxCrossTileID ≤ self1.maxCrossTileID :=
  ⟨rfl, by decide,
    C10_unique_within_placement sampleCollaborators false (Placement.new 1)
      [sampleTile (sampleBucket [sampleInstance 1 10 11]),
        sampleTile (sampleBucket [sampleInstance 0 20 21])]
      rfl (by decide) (by decide) (by decide)⟩

/-! ## Point query, coupling table, fade increment, committed identifiers
(claims C13, C15, C18, C19) -/

/-- C13: `getOpacity` returns the joint state stored for the identifier in the committed
opacity map when there is one; otherwise it returns the state whose icon and text channels
both have current 0 and target 0, and `isHidden` holds for both channels; `isHidden` is
true exactly when current and target are both 0. -/
theorem C13_getOpacity_point_query (self : Placement) (k : Nat) :
    (∀ j, IdMap.find self.opacities k = some j → self.getOpacity k = j) ∧
    (IdMap.find self.opacities k = none →
      self.getOpacity k =
          { icon := { opacity := 0, targetOpacity := 0 },
            text := { opacity := 0, targetOpacity := 0 } } ∧
        (self.getOpacity k).icon.isHidden = true ∧ (self.getOpacity k).text.isHidden = true) ∧
    (∀ s : OpacityState, s.isHidden = true ↔ (s.opacity = 0 ∧ s.targetOpacity = 0)) := by
  refine ⟨?_, ?_, ?_⟩
  · intro j hj
    simp only [Placement.getOpacity, hj]
  · intro hnone
    have h : self.getOpacity k =
        { icon := { opacity := 0, targetOpacity := 0 },
          text := { opacity := 0, targetOpacity := 0 } } := by
      simp only [Placement.getOpacity, hnone]
      rfl
    rw [h]
    simp [OpacityState.isHidden]
  · intro s
    simp [OpacityState.isHidden]

/-- C13 (witness): after the first commit of `framePlaced`, identifier 1 is stored and
identifier 2 is unknown. -/
theorem C13_getOpacity_point_query_witness :
    IdMap.find (commitFirst exactRatio).opacities 1 =
        some { icon := { opacity := 0, targetOpacity := 1 },
               text := { opacity := 0, targetOpacity := 1 } } ∧
      (commitFirst exactRatio).getOpacity 1 =
        { icon := { opacity := 0, targetOpacity := 1 },
          text := { opacity := 0, targetOpacity := 1 } } ∧
      IdMap.find (commitFirst exactRatio).opacities 2 = none ∧
      ((commitFirst exactRatio).getOpacity 2 =
          { icon := { opacity := 0, targetOpacity := 0 },
            text := { opacity := 0, targetOpacity := 0 } } ∧
        ((commitFirst exactRatio).getOpacity 2).icon.isHidden = true ∧
        ((commitFirst exactRatio).getOpacity 2).text.isHidden = true) :=
  have h2 : IdMap.find (commitFirst exactRatio).opacities 2 = none := by
    rw [commitFirst, find_commit_none]
    simp [framePlaced, IdMap.find]
  ⟨commitFirst_find exactRatio,
    (C13_getOpacity_point_query (commitFirst exactRatio) 1).1 _ (commitFirst_find exactRatio),
    h2, (C13_getOpacity_point_query (commitFirst exactRatio) 2).2.1 h2⟩

/-- C15: for all raw answers `t` (text) and `i` (icon) and all flag values the coupled
decisions are `t AND (textWithoutIcon OR i)` and `i AND (iconWithoutText OR t)`, and these
are the flags recorded on the candidate, with `iconWithoutText` and `textWithoutIcon`
computed as on lines 80-81.  When only the icon can stand alone the text becomes `t AND i`
and the icon stays `i`; when only the text can stand alone the icon becomes `t AND i` and
the text stays `t`; when both can stand alone neither changes; a decision is never true
for a half whose raw answer is false. -/
theorem C15_coupling_table (bucket : SymbolBucket) (self : Placement) (s : SymbolInstance)
    (iconWithoutText textWithoutIcon t i : Bool) :
    combinePlacements iconWithoutText textWithoutIcon t i =
        (t && (textWithoutIcon || i), i && (iconWithoutText || t)) ∧
      (recordPlacement bucket self s t i).2.placedText =
        (t && ((!bucket.hasIconData || bucket.iconOptional) || i)) ∧
      (recordPlacement bucket self s t i).2.placedIcon =
        (i && ((!bucket.hasTextData || bucket.textOptional) || t)) ∧
      combinePlacements true false t i = (t && i, i) ∧
      combinePlacements false true t i = (t, t && i) ∧
      combinePlacements true true t i = (t, i) ∧
      ((combinePlacements iconWithoutText textWithoutIcon t i).1 && !t) = false ∧
      ((combinePlacements iconWithoutText textWithoutIcon t i).2 && !i) = false := by
  have htable : ∀ a b x y : Bool,
      combinePlacements a b x y = (x && (b || y), y && (a || x)) := by
    intro a b x y
    cases a <;> cases b <;> cases x <;> cases y <;> rfl
  refine ⟨htable _ _ _ _, ?_, ?_, ?_, ?_, ?_, ?_, ?_⟩
  · simp only [recordPlacement, htable]
  · simp only [recordPlacement, htable]
  · cases t <;> cases i <;> rfl
  · cases t <;> cases i <;> rfl
  · rfl
  · rw [htable]
    cases t <;> cases textWithoutIcon <;> cases i <;> rfl
  · rw [htable]
    cases t <;> cases iconWithoutText <;> cases i <;> rfl

/-- C18: with the quotient of durations as the specification gives it, a commit with a
predecessor applies the transition with increment
`(now - previous.commitTimestamp) / 300`, an exact ratio that is not truncated to a whole
number: 300 ms after the predecessor the increment is 1 and 150 ms after it the increment
is 1/2. -/
theorem C18_fade_increment (self prev : Placement) (now : Int) (k : Nat)
    (pair : PlacementPair) (prevState : JointOpacityState)
    (hfresh : IdMap.find self.opacities k = none)
    (hcur : IdMap.find self.placements k = some pair)
    (hprev : IdMap.find prev.opacities k = some prevState) :
    IdMap.find (Placement.commit durationQuotient self (some prev) now).opacities k =
        some (JointOpacityState.fromPrev prevState
          (((now - prev.commitTime : Int) : ℚ) / 300)
          (if pair.icon then 1 else 0) (if pair.text then 1 else 0)) ∧
      durationQuotient ((prev.commitTime + 300) - prev.commitTime) symbolFadeDuration = 1 ∧
      durationQuotient ((prev.commitTime + 150) - prev.commitTime) symbolFadeDuration = 1 / 2 := by
  refine ⟨?_, ?_, ?_⟩
  · rw [find_commit_some, hfresh, hcur]
    simp only [Option.none_or, Option.map_some', nextJointOpacity, hprev, durationQuotient,
      symbolFadeDuration]
    norm_num [boolToFloat]
  · norm_num [durationQuotient, symbolFadeDuration]
  · norm_num [durationQuotient, symbolFadeDuration]

/-- C18 (witness): label 1 committed at time 0 and again 150 ms later. -/
theorem C18_fade_increment_witness :
    IdMap.find (Placement.commit durationQuotient framePlaced
          (some (commitFirst durationQuotient)) 150).opacities 1 =
        some (JointOpacityState.fromPrev
          { icon := { opacity := 0, targetOpacity := 1 },
            text := { opacity := 0, targetOpacity := 1 } }
          (((150 - (commitFirst durationQuotient).commitTime : Int) : ℚ) / 300)
          (if (PlacementPair.mk true true).icon then 1 else 0)
          (if (PlacementPair.mk true true).text then 1 else 0)) ∧
      durationQuotient
        (((commitFirst durationQuotient).commitTime + 300) -
          (commitFirst durationQuotient).commitTime) symbolFadeDuration = 1 ∧
      durationQuotient
        (((commitFirst durationQuotient).commitTime + 150) -
          (commitFirst durationQuotient).commitTime) symbolFadeDuration = 1 / 2 :=
  C18_fade_increment framePlaced (commitFirst durationQuotient) 150 1
    { text := true, icon := true }
    { icon := { opacity := 0, targetOpacity := 1 },
      text := { opacity := 0, targetOpacity := 1 } }
    rfl rfl (commitFirst_find durationQuotient)

/-- C19: after `commit` on a Placement whose opacity map was empty, with or without a
predecessor, the committed opacity map has exactly the identifiers of the current
placement map; the loop over the predecessor's opacities returns the map it was given,
whatever the predecessor and the increment; so an identifier that is not in the current
placement map is not in the committed map, whatever its state in the predecessor. -/
theorem C19_committed_identifiers (durationRatio : Int → Int → ℚ) (self : Placement)
    (prevPlacement : Option Placement) (now : Int) (hempty : self.opacities = []) :
    (∀ k, (IdMap.find (Placement.commit durationRatio self prevPlacement now).opacities k).isSome =
        (IdMap.find self.placements k).isSome) ∧
    (∀ (prevOpacities : IdMap JointOpacityState) (increment : ℚ)
        (opacities : IdMap JointOpacityState),
        commitPrevious prevOpacities increment opacities = opacities) ∧
    (∀ k, IdMap.find self.placements k = none →
        IdMap.find (Placement.commit durationRatio self prevPlacement now).opacities k = none) := by
  have hfind : ∀ k,
      (IdMap.find (Placement.commit durationRatio self prevPlacement now).opacities k).isSome =
        (IdMap.find self.placements k).isSome := by
    intro k
    cases prevPlacement with
    | none =>
        rw [find_commit_none, hempty]
        simp [IdMap.find]
    | some prev =>
        rw [find_commit_some, hempty]
        simp [IdMap.find]
  refine ⟨hfind, commitPrevious_eq, ?_⟩
  intro k hk
  have h := hfind k
  rw [hk] at h
  simpa using h

/-- C19 (witness): the predecessor holds label 7 in the middle of a fade and the current
frame has no candidate. -/
theorem C19_committed_identifiers_witness :
    frameEmpty.opacities = [] ∧
    (∀ k, (IdMap.find
          (Placement.commit exactRatio frameEmpty (some predecessorFading) 150).opacities
          k).isSome =
        (IdMap.find frameEmpty.placements k).isSome) ∧
    (∀ (prevOpacities : IdMap JointOpacityState) (increment : ℚ)
        (opacities : IdMap JointOpacityState),
        commitPrevious prevOpacities increment opacities = opacities) ∧
    (∀ k, IdMap.find frameEmpty.placements k = none →
        IdMap.find
          (Placement.commit exactRatio frameEmpty (some predecessorFading) 150).opacities k
            = none) :=
  ⟨rfl, C19_committed_identifiers exactRatio frameEmpty (some predecessorFading) 150 rfl⟩

/-! ## Candidates without geometry and duplicates (claims C12, C14) -/

theorem combinePlacements_false (iconWithoutText textWithoutIcon : Bool) :
    combinePlacements iconWithoutText textWithoutIcon false false = (false, false) := by
  cases iconWithoutText <;> cases textWithoutIcon <;> rfl

/-- C12 (counterexample): a candidate without text geometry and without icon geometry that
is not a duplicate, processed by a new Placement (counter 0, empty placement map): the
counter becomes 1, the candidate receives identifier 1 and the placement map gains the
entry (false, false) for identifier 1; only the collision structure is unchanged. -/
theorem C12_counterexample :
    emptyInstance.placedTextIndices = [] ∧ emptyInstance.placedIconIndices = [] ∧
    emptyInstance.crossTileID = 0 ∧
    (Placement.new 0).placements = [] ∧ (Placement.new 0).maxCrossTileID = 0 ∧
    (placeSymbolInstance sampleCollaborators (sampleBucket [emptyInstance]) [] [] [] 1 false
        (Placement.new 0) emptyInstance).map
      (fun r => (r.1.placements, r.1.maxCrossTileID, r.2.crossTileID, r.1.collisionIndex)) =
      some ([(1, { text := false, icon := false })], 1, 1, []) := by
  refine ⟨rfl, rfl, rfl, rfl, rfl, rfl⟩

/-- C12 (amended): a candidate with no text geometry and no icon geometry is never inserted
into the collision structure: processing it returns, leaves the collision structure (and
the opacity map) unchanged, and, when it is a duplicate, leaves the Placement and the
candidate unchanged altogether.  When it is not a duplicate its recorded flags are both
false, it receives the next counter value if it had no identifier (the counter advancing),
and the placement map gains the entry (false, false) for its identifier unless the
identifier is already there. -/
theorem C12_candidate_without_geometry (env : Collaborators) (bucket : SymbolBucket)
    (pm tm im : Mat4) (scale : ℚ) (scb : Bool) (self : Placement) (s : SymbolInstance)
    (htext : s.placedTextIndices = []) (hicon : s.placedIconIndices = []) :
    ∃ (self1 : Placement) (s1 : SymbolInstance),
      placeSymbolInstance env bucket pm tm im scale scb self s = some (self1, s1) ∧
      self1.collisionIndex = self.collisionIndex ∧
      self1.opacities = self.opacities ∧
      (s.isDuplicate = true → self1 = self ∧ s1 = s) ∧
      (s.isDuplicate = false →
        s1.placedText = false ∧ s1.placedIcon = false ∧
        s1.crossTileID =
          (if s.crossTileID = 0 then (self.maxCrossTileID + 1) % 2 ^ 32 else s.crossTileID) ∧
        self1.maxCrossTileID =
          (if s.crossTileID = 0 then (self.maxCrossTileID + 1) % 2 ^ 32
           else self.maxCrossTileID) ∧
        self1.placements =
          IdMap.emplace self.placements s1.crossTileID { text := false, icon := false }) := by
  cases hdup : s.isDuplicate with
  | true =>
      refine ⟨self, s, ?_, rfl, rfl, fun _ => ⟨rfl, rfl⟩, ?_⟩
      · simp [placeSymbolInstance, hdup]
      · intro h
        simp at h
  | false =>
      have ht : rawPlaceText env bucket pm tm scale scb self s = some false := by
        simp [rawPlaceText, htext]
      have hi : rawPlaceIcon env bucket pm im scale scb self s = some false := by
        simp [rawPlaceIcon, hicon]
      refine ⟨(recordPlacement bucket self s false false).1,
        (recordPlacement bucket self s false false).2, ?_, ?_, rfl, ?_, fun _ => ?_⟩
      · simp [placeSymbolInstance, hdup, ht, hi]
      · simp [recordPlacement, combinePlacements_false]
      · intro h
        simp at h
      · by_cases h0 : s.crossTileID = 0 <;>
          simp [recordPlacement, combinePlacements_false, h0]

/-- C12 (witness): the candidate of the counterexample. -/
theorem C12_candidate_without_geometry_witness :
    emptyInstance.placedTextIndices = [] ∧ emptyInstance.placedIconIndices = [] ∧
    ∃ (self1 : Placement) (s1 : SymbolInstance),
      placeSymbolInstance sampleCollaborators (sampleBucket [emptyInstance]) [] [] [] 1 false
        (Placement.new 0) emptyInstance = some (self1, s1) ∧
      self1.collisionIndex = (Placement.new 0).collisionIndex ∧
      self1.opacities = (Placement.new 0).opacities ∧
      (emptyInstance.isDuplicate = true → self1 = Placement.new 0 ∧ s1 = emptyInstance) ∧
      (emptyInstance.isDuplicate = false →
        s1.placedText = false ∧ s1.placedIcon = false ∧
        s1.crossTileID =
          (if emptyInstance.crossTileID = 0 then ((Placement.new 0).maxCrossTileID + 1) % 2 ^ 32
           else emptyInstance.crossTileID) ∧
        self1.maxCrossTileID =
          (if emptyInstance.crossTileID = 0 then ((Placement.new 0).maxCrossTileID + 1) % 2 ^ 32
           else (Placement.new 0).maxCrossTileID) ∧
        self1.placements =
          IdMap.emplace (Placement.new 0).placements s1.crossTileID
            { text := false, icon := false }) :=
  ⟨rfl, rfl,
    C12_candidate_without_geometry sampleCollaborators (sampleBucket [emptyInstance]) [] [] [] 1
      false (Placement.new 0) emptyInstance rfl rfl⟩

theorem placeSymbolInstances_append {env : Collaborators} {bucket : SymbolBucket}
    {pm tm im : Mat4} {scale : ℚ} {scb : Bool} (l m : List SymbolInstance) :
    ∀ (p : Placement),
      placeSymbolInstances env bucket pm tm im scale scb p (l ++ m) =
        match placeSymbolInstances env bucket pm tm im scale scb p l with
        | none => none
        | some (q, l1) =>
            match placeSymbolInstances env bucket pm tm im scale scb q m with
            | none => none
            | some (q2, m1) => some (q2, l1 ++ m1) := by
  induction l with
  | nil =>
      intro p
      simp only [List.nil_append, placeSymbolInstances]
      cases placeSymbolInstances env bucket pm tm im scale scb p m with
      | none => rfl
      | some r => rfl
  | cons s rest ih =>
      intro p
      simp only [List.cons_append, placeSymbolInstances, List.append_eq]
      cases placeSymbolInstance env bucket pm tm im scale scb p s with
      | none => rfl
      | some r =>
          obtain ⟨q, s1⟩ := r
          simp only
          rw [ih q]
          cases placeSymbolInstances env bucket pm tm im scale scb q rest with
          | none => rfl
          | some r2 =>
              obtain ⟨q2, rest1⟩ := r2
              simp only
              cases placeSymbolInstances env bucket pm tm im scale scb q2 m with
              | none => rfl
              | some r3 => rfl

theorem placeSymbolInstances_length {env : Collaborators} {bucket : SymbolBucket}
    {pm tm im : Mat4} {scale : ℚ} {scb : Bool} (l : List SymbolInstance) :
    ∀ {p p1 : Placement} {l1 : List SymbolInstance},
      placeSymbolInstances env bucket pm tm im scale scb p l = some (p1, l1) →
      l1.length = l.length := by
  induction l with
  | nil =>
      intro p p1 l1 h
      simp only [placeSymbolInstances] at h
      cases h
      rfl
  | cons s rest ih =>
      intro p p1 l1 h
      simp only [placeSymbolInstances] at h
      cases hs : placeSymbolInstance env bucket pm tm im scale scb p s with
      | none => rw [hs] at h; cases h
      | some r =>
          obtain ⟨q, s1⟩ := r
          rw [hs] at h
          simp only at h
          cases hr : placeSymbolInstances env bucket pm tm im scale scb q rest with
          | none => rw [hr] at h; cases h
          | some r2 =>
              obtain ⟨q2, rest2⟩ := r2
              rw [hr] at h
              cases h
              simp [ih hr]

/-- The loop reads the bucket only through its layout flags and placed-symbol records,
not through its list of candidates. -/
theorem placeSymbolInstances_bucket_irrel (env : Collaborators) (bucket : SymbolBucket)
    (instances : List SymbolInstance) (pm tm im : Mat4) (scale : ℚ) (scb : Bool)
    (l : List SymbolInstance) :
    ∀ (p : Placement),
      placeSymbolInstances env { bucket with symbolInstances := instances } pm tm im scale scb
          p l =
        placeSymbolInstances env bucket pm tm im scale scb p l := by
  induction l with
  | nil => intro p; rfl
  | cons s rest ih =>
      intro p
      simp only [placeSymbolInstances]
      have hs : placeSymbolInstance env { bucket with symbolInstances := instances } pm tm im
          scale scb p s = placeSymbolInstance env bucket pm tm im scale scb p s := rfl
      rw [hs]
      cases placeSymbolInstance env bucket pm tm im scale scb p s with
      | none => rfl
      | some r =>
          obtain ⟨q, s1⟩ := r
          simp only
          rw [ih q]

theorem placeSymbolInstance_duplicate (env : Collaborators) (bucket : SymbolBucket)
    (pm tm im : Mat4) (scale : ℚ) (scb : Bool) (p : Placement) (s : SymbolInstance)
    (hdup : s.isDuplicate = true) :
    placeSymbolInstance env bucket pm tm im scale scb p s = some (p, s) := by
  simp [placeSymbolInstance, hdup]

/-- The loop on a list with a duplicate in the middle: the duplicate is passed through and
the other candidates are processed as if it were not there. -/
theorem placeSymbolInstances_duplicate (env : Collaborators) (bucket : SymbolBucket)
    (pm tm im : Mat4) (scale : ℚ) (scb : Bool) (p : Placement) (s : SymbolInstance)
    (pre post : List SymbolInstance) (hdup : s.isDuplicate = true) :
    placeSymbolInstances env bucket pm tm im scale scb p (pre ++ s :: post) =
      (placeSymbolInstances env bucket pm tm im scale scb p (pre ++ post)).map
        (fun r => (r.1, r.2.take pre.length ++ s :: r.2.drop pre.length)) := by
  rw [placeSymbolInstances_append, placeSymbolInstances_append]
  cases hpre : placeSymbolInstances env bucket pm tm im scale scb p pre with
  | none => rfl
  | some r =>
      obtain ⟨q, pre1⟩ := r
      have hlen : pre1.length = pre.length := placeSymbolInstances_length pre hpre
      simp only [placeSymbolInstances, placeSymbolInstance_duplicate _ _ _ _ _ _ _ _ _ hdup]
      cases placeSymbolInstances env bucket pm tm im scale scb q post with
      | none => rfl
      | some r2 =>
          obtain ⟨q2, post1⟩ := r2
          simp only [Option.map_some', Option.some.injEq, Prod.mk.injEq, true_and]
          rw [← hlen, List.take_left', List.drop_left'] <;> rfl

/-- C14: a candidate whose duplicate flag is set is passed through by the loop body
unchanged, together with the Placement (collision structure, counter, placement map),
whatever the collision structure would answer: no insertion, no identifier, flags as they
were, no entry in the placement map.  The result of `placeLayerBucket` on a bucket holding
the duplicate between the candidates `pre` and `post` is the result of the pass on the
bucket without it, with the duplicate put back at its place. -/
theorem C14_duplicates_skipped (env : Collaborators) (bucket : SymbolBucket)
    (pm tm im : Mat4) (scale : ℚ) (scb : Bool) (self : Placement) (s : SymbolInstance)
    (pre post : List SymbolInstance) (hdup : s.isDuplicate = true) :
    placeSymbolInstance env bucket pm tm im scale scb self s = some (self, s) ∧
      Placement.placeLayerBucket env self { bucket with symbolInstances := pre ++ s :: post }
          pm tm im scale scb =
        (Placement.placeLayerBucket env self { bucket with symbolInstances := pre ++ post }
            pm tm im scale scb).map
          (fun r =>
            (r.1,
             { r.2 with
               symbolInstances :=
                 r.2.symbolInstances.take pre.length ++ s ::
                   r.2.symbolInstances.drop pre.length })) := by
  refine ⟨placeSymbolInstance_duplicate env bucket pm tm im scale scb self s hdup, ?_⟩
  simp only [Placement.placeLayerBucket, placeSymbolInstances_bucket_irrel]
  rw [placeSymbolInstances_duplicate env bucket pm tm im scale scb self s pre post hdup]
  cases placeSymbolInstances env bucket pm tm im scale scb self (pre ++ post) with
  | none => rfl
  | some r => rfl

/-- C14 (witness): a duplicate between two candidates of the coupled bucket. -/
theorem C14_duplicates_skipped_witness :
    duplicateInstance.isDuplicate = true ∧
    placeSymbolInstance sampleCollaborators (sampleBucket []) [] [] [] 1 false (Placement.new 0)
        duplicateInstance = some (Placement.new 0, duplicateInstance) ∧
      Placement.placeLayerBucket sampleCollaborators (Placement.new 0)
          { sampleBucket [] with
            symbolInstances :=
              [sampleInstance 1 10 11] ++ duplicateInstance :: [sampleInstance 0 12 11] }
          [] [] [] 1 false =
        (Placement.placeLayerBucket sampleCollaborators (Placement.new 0)
            { sampleBucket [] with
              symbolInstances := [sampleInstance 1 10 11] ++ [sampleInstance 0 12 11] }
            [] [] [] 1 false).map
          (fun r =>
            (r.1,
             { r.2 with
               symbolInstances :=
                 r.2.symbolInstances.take [sampleInstance 1 10 11].length ++
                   duplicateInstance ::
                   r.2.symbolInstances.drop [sampleInstance 1 10 11].length })) :=
  ⟨rfl,
    C14_duplicates_skipped sampleCollaborators (sampleBucket []) [] [] [] 1 false
      (Placement.new 0) duplicateInstance [sampleInstance 1 10 11] [sampleInstance 0 12 11] rfl⟩

/-! ## Identifier stability (claim C11) -/

/-- The loop body either hands the next counter value to a candidate that takes an
identifier, or leaves identifier and counter as they are. -/
theorem placeSymbolInstance_identifier {env : Collaborators} {bucket : SymbolBucket}
    {pm tm im : Mat4} {scale : ℚ} {scb : Bool} {p p1 : Placement} {s s1 : SymbolInstance}
    (h : placeSymbolInstance env bucket pm tm im scale scb p s = some (p1, s1)) :
    (takesIdentifier s = true ∧ s1.crossTileID = (p.maxCrossTileID + 1) % 2 ^ 32 ∧
        p1.maxCrossTileID = (p.maxCrossTileID + 1) % 2 ^ 32) ∨
      (takesIdentifier s = false ∧ s1.crossTileID = s.crossTileID ∧
        p1.maxCrossTileID = p.maxCrossTileID) := by
  rcases placeSymbolInstance_inv h with ⟨hdup, hp, hs⟩ | ⟨hdup, t, i, _, _, hp, hs⟩
  · subst hp hs
    right
    simp [takesIdentifier, hdup]
  · subst hp hs
    by_cases h0 : s.crossTileID = 0
    · left
      simp [takesIdentifier, hdup, recordPlacement, h0]
    · right
      simp [takesIdentifier, hdup, recordPlacement, h0]

/-- The identifiers handed out by the loop are the consecutive counter values, candidates
that take none keep theirs, and the counter advances by the number handed out. -/
theorem placeSymbolInstances_handedOut {env : Collaborators} {bucket : SymbolBucket}
    {pm tm im : Mat4} {scale : ℚ} {scb : Bool} (l : List SymbolInstance) :
    ∀ {p p1 : Placement} {l1 : List SymbolInstance},
      placeSymbolInstances env bucket pm tm im scale scb p l = some (p1, l1) →
      p.maxCrossTileID + l.length < 2 ^ 32 →
      handedOut l l1 = List.range' (p.maxCrossTileID + 1) (l.countP takesIdentifier) ∧
        p1.maxCrossTileID = p.maxCrossTileID + l.countP takesIdentifier ∧
        List.Forall₂
          (fun s s1 => takesIdentifier s = false → s1.crossTileID = s.crossTileID) l l1 := by
  induction l with
  | nil =>
      intro p p1 l1 h _
      simp only [placeSymbolInstances] at h
      cases h
      exact ⟨rfl, rfl, List.Forall₂.nil⟩
  | cons s rest ih =>
      intro p p1 l1 h hlt
      simp only [placeSymbolInstances] at h
      cases hs : placeSymbolInstance env bucket pm tm im scale scb p s with
      | none => rw [hs] at h; cases h
      | some r =>
          obtain ⟨q, s1⟩ := r
          rw [hs] at h
          simp only at h
          cases hr : placeSymbolInstances env bucket pm tm im scale scb q rest with
          | none => rw [hr] at h; cases h
          | some r2 =>
              obtain ⟨q2, rest2⟩ := r2
              rw [hr] at h
              cases h
              simp only [List.length_cons] at hlt
              rcases placeSymbolInstance_identifier hs with ⟨ht, hid, hmax⟩ | ⟨ht, hid, hmax⟩
              · have hmod : (p.maxCrossTileID + 1) % 2 ^ 32 = p.maxCrossTileID + 1 :=
                  Nat.mod_eq_of_lt (by omega)
                rw [hmod] at hid hmax
                obtain ⟨h1, h2, h3⟩ := ih hr (by omega)
                refine ⟨?_, ?_, List.Forall₂.cons (fun hf => ?_) h3⟩
                · simp only [handedOut, ht, if_true, List.countP_cons_of_pos _ _ ht,
                    List.range'_succ, h1, hid, hmax]
                · rw [h2, hmax, List.countP_cons_of_pos _ _ ht]
                  omega
                · rw [ht] at hf
                  cases hf
              · have hneg : ¬ takesIdentifier s = true := by simp [ht]
                obtain ⟨h1, h2, h3⟩ := ih hr (by omega)
                refine ⟨?_, ?_, List.Forall₂.cons (fun _ => hid) h3⟩
                · simp only [handedOut, ht, Bool.false_eq_true, if_false,
                    List.countP_cons_of_neg _ _ hneg, h1, hmax]
                · rw [h2, hmax, List.countP_cons_of_neg _ _ hneg]

/-- C11: `placeLayerBucket` (the placed-symbol indices being in range and the counter not
wrapping past `2 ^ 32` during the pass) returns and leaves unchanged the identifier of
every candidate whose identifier is already non-zero, and of every duplicate; the
identifiers it hands to the non-duplicate candidates without identifier are, in bucket
order, the consecutive counter values previous maximum + 1, + 2, ..., so they are strictly
increasing, and the counter ends at the last one handed out. -/
theorem C11_identifier_stability (env : Collaborators) (self : Placement)
    (bucket : SymbolBucket) (pm tm im : Mat4) (scale : ℚ) (scb : Bool)
    (hrange : bucketInRange bucket = true)
    (hwrap : self.maxCrossTileID + bucket.symbolInstances.length < 2 ^ 32) :
    ∃ (self1 : Placement) (bucket1 : SymbolBucket),
      Placement.placeLayerBucket env self bucket pm tm im scale scb = some (self1, bucket1) ∧
      List.Forall₂
        (fun s s1 => (s.crossTileID ≠ 0 ∨ s.isDuplicate = true) →
          s1.crossTileID = s.crossTileID)
        bucket.symbolInstances bucket1.symbolInstances ∧
      handedOut bucket.symbolInstances bucket1.symbolInstances =
        List.range' (self.maxCrossTileID + 1)
          (bucket.symbolInstances.countP (fun s => !s.isDuplicate && decide (s.crossTileID = 0))) ∧
      List.Pairwise (fun a b => a < b)
        (handedOut bucket.symbolInstances bucket1.symbolInstances) ∧
      self1.maxCrossTileID =
        self.maxCrossTileID +
          bucket.symbolInstances.countP
            (fun s => !s.isDuplicate && decide (s.crossTileID = 0)) := by
  obtain ⟨⟨q, l1⟩, hl⟩ :=
    placeSymbolInstances_isSome env bucket pm tm im scale scb bucket.symbolInstances self hrange
  obtain ⟨h1, h2, h3⟩ := placeSymbolInstances_handedOut bucket.symbolInstances hl hwrap
  have hfun : (fun s : SymbolInstance => !s.isDuplicate && decide (s.crossTileID = 0)) =
      takesIdentifier := by
    funext s
    rfl
  refine ⟨q, { bucket with symbolInstances := l1 }, ?_, ?_, ?_, ?_, ?_⟩
  · simp [Placement.placeLayerBucket, hl]
  · refine List.Forall₂.imp ?_ h3
    intro s s1 hkeep hcase
    apply hkeep
    rcases hcase with h0 | hdup
    · simp [takesIdentifier, h0]
    · simp [takesIdentifier, hdup]
  · rw [hfun]
    exact h1
  · show List.Pairwise (fun a b => a < b) (handedOut bucket.symbolInstances l1)
    rw [h1]
    exact List.pairwise_lt_range' _ _
  · rw [hfun]
    exact h2

/-- C11 (witness): a new Placement processes a bucket holding a candidate with identifier
5, a duplicate and two new candidates. -/
theorem C11_identifier_stability_witness :
    bucketInRange (sampleBucket
        [sampleInstance 0 10 11, duplicateInstance, sampleInstance 5 20 21,
          sampleInstance 0 30 31]) = true ∧
    (Placement.new 7).maxCrossTileID +
        (sampleBucket [sampleInstance 0 10 11, duplicateInstance, sampleInstance 5 20 21,
          sampleInstance 0 30 31]).symbolInstances.length < 2 ^ 32 ∧
    ∃ (self1 : Placement) (bucket1 : SymbolBucket),
      Placement.placeLayerBucket sampleCollaborators (Placement.new 7)
          (sampleBucket [sampleInstance 0 10 11, duplicateInstance, sampleInstance 5 20 21,
            sampleInstance 0 30 31]) [] [] [] 1 false = some (self1, bucket1) ∧
      List.Forall₂
        (fun s s1 => (s.crossTileID ≠ 0 ∨ s.isDuplicate = true) →
          s1.crossTileID = s.crossTileID)
        (sampleBucket [sampleInstance 0 10 11, duplicateInstance, sampleInstance 5 20 21,
          sampleInstance 0 30 31]).symbolInstances bucket1.symbolInstances ∧
      handedOut
          (sampleBucket [sampleInstance 0 10 11, duplicateInstance, sampleInstance 5 20 21,
            sampleInstance 0 30 31]).symbolInstances bucket1.symbolInstances =
        List.range' ((Placement.new 7).maxCrossTileID + 1)
          ((sampleBucket [sampleInstance 0 10 11, duplicateInstance, sampleInstance 5 20 21,
            sampleInstance 0 30 31]).symbolInstances.countP
              (fun s => !s.isDuplicate && decide (s.crossTileID = 0))) ∧
      List.Pairwise (fun a b => a < b)
        (handedOut
          (sampleBucket [sampleInstance 0 10 11, duplicateInstance, sampleInstance 5 20 21,
            sampleInstance 0 30 31]).symbolInstances bucket1.symbolInstances) ∧
      self1.maxCrossTileID =
        (Placement.new 7).maxCrossTileID +
          (sampleBucket [sampleInstance 0 10 11, duplicateInstance, sampleInstance 5 20 21,
            sampleInstance 0 30 31]).symbolInstances.countP
              (fun s => !s.isDuplicate && decide (s.crossTileID = 0)) :=
  ⟨rfl, by decide,
    C11_identifier_stability sampleCollaborators (Placement.new 7) _ [] [] [] 1 false rfl
      (by decide)⟩

/-! ## Greedy insertion (claim C16) -/

theorem rawPlaceText_congr (env : Collaborators) (bucket : SymbolBucket) (pm tm : Mat4)
    (scale : ℚ) (scb : Bool) (q q1 : Placement) (s : SymbolInstance)
    (h : q1.collisionIndex = q.collisionIndex) :
    rawPlaceText env bucket pm tm scale scb q1 s = rawPlaceText env bucket pm tm scale scb q s := by
  simp only [rawPlaceText, h]

theorem rawPlaceIcon_congr (env : Collaborators) (bucket : SymbolBucket) (pm im : Mat4)
    (scale : ℚ) (scb : Bool) (q q1 : Placement) (s : SymbolInstance)
    (h : q1.collisionIndex = q.collisionIndex) :
    rawPlaceIcon env bucket pm im scale scb q1 s = rawPlaceIcon env bucket pm im scale scb q s := by
  simp only [rawPlaceIcon, h]

/-- The collision structure after the loop body: the calls matching the recorded flags of
the candidate, on top of what it held. -/
theorem placeSymbolInstance_index {env : Collaborators} {bucket : SymbolBucket}
    {pm tm im : Mat4} {scale : ℚ} {scb : Bool} {p p1 : Placement} {s s1 : SymbolInstance}
    (h : placeSymbolInstance env bucket pm tm im scale scb p s = some (p1, s1)) :
    p1.collisionIndex = insertedBy bucket s s1 ++ p.collisionIndex := by
  rcases placeSymbolInstance_inv h with ⟨hdup, hp, hs⟩ | ⟨hdup, t, i, _, _, hp, hs⟩
  · subst hp hs
    simp [insertedBy, hdup]
  · subst hp hs
    simp only [insertedBy, hdup, recordPlacement, CollisionIndex.insertFeature,
      Bool.false_eq_true, if_false]
    split <;> split <;> rfl

theorem placeSymbolInstances_index {env : Collaborators} {bucket : SymbolBucket}
    {pm tm im : Mat4} {scale : ℚ} {scb : Bool} (l : List SymbolInstance) :
    ∀ {p p1 : Placement} {l1 : List SymbolInstance},
      placeSymbolInstances env bucket pm tm im scale scb p l = some (p1, l1) →
      p1.collisionIndex = insertedLog bucket l l1 ++ p.collisionIndex := by
  induction l with
  | nil =>
      intro p p1 l1 h
      simp only [placeSymbolInstances] at h
      cases h
      rfl
  | cons s rest ih =>
      intro p p1 l1 h
      simp only [placeSymbolInstances] at h
      cases hs : placeSymbolInstance env bucket pm tm im scale scb p s with
      | none => rw [hs] at h; cases h
      | some r =>
          obtain ⟨q, s1⟩ := r
          rw [hs] at h
          simp only at h
          cases hr : placeSymbolInstances env bucket pm tm im scale scb q rest with
          | none => rw [hr] at h; cases h
          | some r2 =>
              obtain ⟨q2, rest2⟩ := r2
              rw [hr] at h
              cases h
              rw [ih hr, placeSymbolInstance_index hs]
              simp [insertedLog]

/-- C16: in `placeLayerBucket` (placed-symbol indices in range), a candidate `s` that is not
a duplicate, standing between the candidates `pre` and `post`, is processed in the state
`q` reached by the pass over `pre`, whose collision structure holds exactly the insertions
made for `pre` on top of the initial ones; both halves are tested against that structure
(the raw answers `t` and `i` are the same in every state with that structure); after the
candidate the structure has received the icon feature exactly when the final placedIcon
is true and the text feature exactly when the final placedText is true, each with the
ignore-placement flag of its half; the final flags are the coupled ones, so that a half
accepted by the test and vetoed by the coupling is not inserted. -/
theorem C16_greedy_insertion (env : Collaborators) (self : Placement) (bucket : SymbolBucket)
    (pm tm im : Mat4) (scale : ℚ) (scb : Bool) (pre post : List SymbolInstance)
    (s : SymbolInstance)
    (hsplit : bucket.symbolInstances = pre ++ s :: post)
    (hrange : bucketInRange bucket = true)
    (hdup : s.isDuplicate = false) :
    ∃ (q q1 self1 : Placement) (pre1 post1 : List SymbolInstance) (s1 : SymbolInstance)
        (t i : Bool),
      placeSymbolInstances env bucket pm tm im scale scb self pre = some (q, pre1) ∧
      q.collisionIndex = insertedLog bucket pre pre1 ++ self.collisionIndex ∧
      (∀ q2 : Placement, q2.collisionIndex = q.collisionIndex →
        rawPlaceText env bucket pm tm scale scb q2 s = some t ∧
        rawPlaceIcon env bucket pm im scale scb q2 s = some i) ∧
      placeSymbolInstance env bucket pm tm im scale scb q s = some (q1, s1) ∧
      s1.placedText =
        (combinePlacements (!bucket.hasTextData || bucket.textOptional)
          (!bucket.hasIconData || bucket.iconOptional) t i).1 ∧
      s1.placedIcon =
        (combinePlacements (!bucket.hasTextData || bucket.textOptional)
          (!bucket.hasIconData || bucket.iconOptional) t i).2 ∧
      q1.collisionIndex =
        (if s1.placedIcon then [(s.iconCollisionFeature, bucket.iconIgnorePlacement)] else []) ++
          ((if s1.placedText then [(s.textCollisionFeature, bucket.textIgnorePlacement)]
            else []) ++ q.collisionIndex) ∧
      placeSymbolInstances env bucket pm tm im scale scb q1 post = some (self1, post1) ∧
      Placement.placeLayerBucket env self bucket pm tm im scale scb =
        some (self1, { bucket with symbolInstances := pre1 ++ s1 :: post1 }) := by
  have hall : (pre ++ s :: post).all (indicesInRange bucket) = true := by
    rw [← hsplit]
    exact hrange
  simp only [List.all_append, List.all_cons, Bool.and_eq_true] at hall
  obtain ⟨hpre, hs, hpost⟩ := hall
  obtain ⟨⟨q, pre1⟩, hq⟩ := placeSymbolInstances_isSome env bucket pm tm im scale scb pre self hpre
  obtain ⟨⟨q1, s1⟩, hq1⟩ := placeSymbolInstance_isSome env bucket pm tm im scale scb q s hs
  obtain ⟨⟨self1, post1⟩, hself1⟩ :=
    placeSymbolInstances_isSome env bucket pm tm im scale scb post q1 hpost
  rcases placeSymbolInstance_inv hq1 with ⟨hd, _, _⟩ | ⟨_, t, i, ht, hi, hp1, hs1⟩
  · rw [hdup] at hd
    cases hd
  · refine ⟨q, q1, self1, pre1, post1, s1, t, i, hq, placeSymbolInstances_index pre hq, ?_, hq1,
      ?_, ?_, ?_, hself1, ?_⟩
    · intro q2 hq2
      exact ⟨by rw [rawPlaceText_congr _ _ _ _ _ _ q q2 s hq2, ht],
        by rw [rawPlaceIcon_congr _ _ _ _ _ _ q q2 s hq2, hi]⟩
    · rw [hs1]
      rfl
    · rw [hs1]
      rfl
    · rw [placeSymbolInstance_index hq1]
      simp [insertedBy, hdup]
    · unfold Placement.placeLayerBucket
      rw [hsplit, placeSymbolInstances_append, hq]
      simp only [placeSymbolInstances, hq1, hself1]

/-- C16 (witness): the second candidate of the coupled bucket; its text is accepted by the
collision test and its icon rejected, and nothing is inserted for it. -/
theorem C16_greedy_insertion_witness :
    coupledBucket.symbolInstances = [sampleInstance 1 10 11] ++ sampleInstance 0 12 11 :: [] ∧
    bucketInRange coupledBucket = true ∧
    (sampleInstance 0 12 11).isDuplicate = false ∧
    ∃ (q q1 self1 : Placement) (pre1 post1 : List SymbolInstance) (s1 : SymbolInstance)
        (t i : Bool),
      placeSymbolInstances sampleCollaborators coupledBucket [] [] [] 1 false (Placement.new 0)
        [sampleInstance 1 10 11] = some (q, pre1) ∧
      q.collisionIndex =
        insertedLog coupledBucket [sampleInstance 1 10 11] pre1 ++
          (Placement.new 0).collisionIndex ∧
      (∀ q2 : Placement, q2.collisionIndex = q.collisionIndex →
        rawPlaceText sampleCollaborators coupledBucket [] [] 1 false q2
            (sampleInstance 0 12 11) = some t ∧
        rawPlaceIcon sampleCollaborators coupledBucket [] [] 1 false q2
            (sampleInstance 0 12 11) = some i) ∧
      placeSymbolInstance sampleCollaborators coupledBucket [] [] [] 1 false q
        (sampleInstance 0 12 11) = some (q1, s1) ∧
      s1.placedText =
        (combinePlacements (!coupledBucket.hasTextData || coupledBucket.textOptional)
          (!coupledBucket.hasIconData || coupledBucket.iconOptional) t i).1 ∧
      s1.placedIcon =
        (combinePlacements (!coupledBucket.hasTextData || coupledBucket.textOptional)
          (!coupledBucket.hasIconData || coupledBucket.iconOptional) t i).2 ∧
      q1.collisionIndex =
        (if s1.placedIcon then
            [((sampleInstance 0 12 11).iconCollisionFeature, coupledBucket.iconIgnorePlacement)]
          else []) ++
          ((if s1.placedText then
              [((sampleInstance 0 12 11).textCollisionFeature,
                coupledBucket.textIgnorePlacement)]
            else []) ++ q.collisionIndex) ∧
      placeSymbolInstances sampleCollaborators coupledBucket [] [] [] 1 false q1 [] =
        some (self1, post1) ∧
      Placement.placeLayerBucket sampleCollaborators (Placement.new 0) coupledBucket [] [] [] 1
          false =
        some (self1, { coupledBucket with symbolInstances := pre1 ++ s1 :: post1 }) :=
  ⟨rfl, rfl, rfl,
    C16_greedy_insertion sampleCollaborators (Placement.new 0) coupledBucket [] [] [] 1 false
      [sampleInstance 1 10 11] [] (sampleInstance 0 12 11) rfl rfl rfl⟩

/-! ## Bucket opacity projection (claim C17) -/

theorem updateCollisionBox_symbol {V W : Type} (boxVertex : Bool → Bool → W)
    (feature : CollisionFeature) (placed : Bool) (buffers : OpacityBuffers V W) :
    (updateCollisionBox boxVertex buffers feature placed).textOpacityVertices =
        buffers.textOpacityVertices ∧
      (updateCollisionBox boxVertex buffers feature placed).iconOpacityVertices =
        buffers.iconOpacityVertices := by
  unfold updateCollisionBox
  generalize feature.boxes = boxes
  cases feature.alongLine with
  | true =>
      simp only [if_true]
      induction boxes generalizing buffers with
      | nil => exact ⟨rfl, rfl⟩
      | cons box rest ih =>
          simp only [List.foldl_cons]
          exact ih _
  | false =>
      simp only [Bool.false_eq_true, if_false]
      induction boxes generalizing buffers with
      | nil => exact ⟨rfl, rfl⟩
      | cons box rest ih =>
          simp only [List.foldl_cons]
          exact ih _

theorem updateInstanceOpacities_symbol {V W : Type} (vertex : ℚ → ℚ → V)
    (boxVertex : Bool → Bool → W) (self : Placement) (buffers : OpacityBuffers V W)
    (s : SymbolInstance) :
    (updateInstanceOpacities vertex boxVertex self buffers s).textOpacityVertices =
        buffers.textOpacityVertices ++ specTextVertices vertex self s ∧
      (updateInstanceOpacities vertex boxVertex self buffers s).iconOpacityVertices =
        buffers.iconOpacityVertices ++ specIconVertices vertex self s := by
  unfold updateInstanceOpacities
  simp only [(updateCollisionBox_symbol boxVertex _ _ _).1,
    (updateCollisionBox_symbol boxVertex _ _ _).2, specTextVertices, specIconVertices]
  constructor
  · cases s.hasText <;> cases s.hasIcon <;> cases s.iconQuad <;>
      simp [Nat.mul_comm]
  · cases s.hasText <;> cases s.hasIcon <;> cases s.iconQuad <;> simp

theorem foldl_updateInstanceOpacities_symbol {V W : Type} (vertex : ℚ → ℚ → V)
    (boxVertex : Bool → Bool → W) (self : Placement) (l : List SymbolInstance) :
    ∀ (buffers : OpacityBuffers V W),
      (l.foldl (updateInstanceOpacities vertex boxVertex self) buffers).textOpacityVertices =
          buffers.textOpacityVertices ++ l.flatMap (specTextVertices vertex self) ∧
        (l.foldl (updateInstanceOpacities vertex boxVertex self) buffers).iconOpacityVertices =
          buffers.iconOpacityVertices ++ l.flatMap (specIconVertices vertex self) := by
  induction l with
  | nil => intro buffers; simp
  | cons s rest ih =>
      intro buffers
      simp only [List.foldl_cons, List.flatMap_cons]
      obtain ⟨h1, h2⟩ := ih (updateInstanceOpacities vertex boxVertex self buffers s)
      rw [h1, h2, (updateInstanceOpacities_symbol vertex boxVertex self buffers s).1,
        (updateInstanceOpacities_symbol vertex boxVertex self buffers s).2]
      simp [List.append_assoc]

/-- C17: for a bucket that has text data and icon data, whatever the buffers held before,
the text opacity buffer uploaded by `updateBucketOpacities` is the concatenation, in bucket
order, over the candidates with text, of `4 x` (number of glyph quads) copies of the vertex
made of the candidate's committed text target and current as returned by `getOpacity`, and
the uploaded icon opacity buffer is the concatenation of four copies of the vertex of the
committed icon state for each candidate with an icon and an icon quad, and nothing for the
others. -/
theorem C17_bucket_opacity_projection {V W : Type} (vertex : ℚ → ℚ → V)
    (boxVertex : Bool → Bool → W) (self : Placement) (bucket : SymbolBucket)
    (buffers : OpacityBuffers V W)
    (htext : bucket.hasTextData = true) (hicon : bucket.hasIconData = true) :
    (Placement.updateBucketOpacities vertex boxVertex self bucket buffers).textOpacityVertexBuffer =
        bucket.symbolInstances.flatMap
          (fun s =>
            if s.hasText then
              List.replicate (4 * s.glyphQuads.length)
                (vertex (self.getOpacity s.crossTileID).text.targetOpacity
                  (self.getOpacity s.crossTileID).text.opacity)
            else []) ∧
      (Placement.updateBucketOpacities vertex boxVertex self bucket buffers).iconOpacityVertexBuffer =
        bucket.symbolInstances.flatMap
          (fun s =>
            if s.hasIcon && s.iconQuad.isSome then
              List.replicate 4
                (vertex (self.getOpacity s.crossTileID).icon.targetOpacity
                  (self.getOpacity s.crossTileID).icon.opacity)
            else []) := by
  have hfold := foldl_updateInstanceOpacities_symbol vertex boxVertex self bucket.symbolInstances
  have ht : (fun s : SymbolInstance =>
      if s.hasText then
        List.replicate (4 * s.glyphQuads.length)
          (vertex (self.getOpacity s.crossTileID).text.targetOpacity
            (self.getOpacity s.crossTileID).text.opacity)
      else []) = specTextVertices vertex self := rfl
  have hi : (fun s : SymbolInstance =>
      if s.hasIcon && s.iconQuad.isSome then
        List.replicate 4
          (vertex (self.getOpacity s.crossTileID).icon.targetOpacity
            (self.getOpacity s.crossTileID).icon.opacity)
      else []) = specIconVertices vertex self := rfl
  rw [ht, hi]
  unfold Placement.updateBucketOpacities
  simp only [htext, hicon, if_true]
  constructor
  · simp only [apply_ite (@OpacityBuffers.textOpacityVertexBuffer V W), ite_self, (hfold _).1,
      apply_ite (@OpacityBuffers.textOpacityVertices V W), List.nil_append]
  · simp only [apply_ite (@OpacityBuffers.iconOpacityVertexBuffer V W), ite_self, (hfold _).2,
      apply_ite (@OpacityBuffers.iconOpacityVertices V W), List.nil_append]

/-- C17 (witness): the coupled bucket after the first commit of label 1, with buffers that
still hold content of an earlier call. -/
theorem C17_bucket_opacity_projection_witness :
    coupledBucket.hasTextData = true ∧ coupledBucket.hasIconData = true ∧
    (Placement.updateBucketOpacities (fun target current => (target, current))
        (fun placed notUsed => (placed, notUsed)) (commitFirst exactRatio) coupledBucket
        staleBuffers).textOpacityVertexBuffer =
      coupledBucket.symbolInstances.flatMap
        (fun s =>
          if s.hasText then
            List.replicate (4 * s.glyphQuads.length)
              (((commitFirst exactRatio).getOpacity s.crossTileID).text.targetOpacity,
                ((commitFirst exactRatio).getOpacity s.crossTileID).text.opacity)
          else []) ∧
    (Placement.updateBucketOpacities (fun target current => (target, current))
        (fun placed notUsed => (placed, notUsed)) (commitFirst exactRatio) coupledBucket
        staleBuffers).iconOpacityVertexBuffer =
      coupledBucket.symbolInstances.flatMap
        (fun s =>
          if s.hasIcon && s.iconQuad.isSome then
            List.replicate 4
              (((commitFirst exactRatio).getOpacity s.crossTileID).icon.targetOpacity,
                ((commitFirst exactRatio).getOpacity s.crossTileID).icon.opacity)
          else []) :=
  ⟨rfl, rfl,
    C17_bucket_opacity_projection (fun target current => (target, current))
      (fun placed notUsed => (placed, notUsed)) (commitFirst exactRatio) coupledBucket
      staleBuffers rfl rfl⟩

/-! ## First entry wins (claim C20) -/

theorem placeSymbolInstance_opacities {env : Collaborators} {bucket : SymbolBucket}
    {pm tm im : Mat4} {scale : ℚ} {scb : Bool} {p p1 : Placement} {s s1 : SymbolInstance}
    (h : placeSymbolInstance env bucket pm tm im scale scb p s = some (p1, s1)) :
    p1.opacities = p.opacities := by
  rcases placeSymbolInstance_inv h with ⟨_, hp, _⟩ | ⟨_, t, i, _, _, hp, _⟩
  · rw [hp]
  · rw [hp]
    rfl

theorem placeSymbolInstances_opacities {env : Collaborators} {bucket : SymbolBucket}
    {pm tm im : Mat4} {scale : ℚ} {scb : Bool} (l : List SymbolInstance) :
    ∀ {p p1 : Placement} {l1 : List SymbolInstance},
      placeSymbolInstances env bucket pm tm im scale scb p l = some (p1, l1) →
      p1.opacities = p.opacities := by
  induction l with
  | nil =>
      intro p p1 l1 h
      simp only [placeSymbolInstances] at h
      cases h
      rfl
  | cons s rest ih =>
      intro p p1 l1 h
      simp only [placeSymbolInstances] at h
      cases hs : placeSymbolInstance env bucket pm tm im scale scb p s with
      | none => rw [hs] at h; cases h
      | some r =>
          obtain ⟨q, s1⟩ := r
          rw [hs] at h
          simp only at h
          cases hr : placeSymbolInstances env bucket pm tm im scale scb q rest with
          | none => rw [hr] at h; cases h
          | some r2 =>
              obtain ⟨q2, rest2⟩ := r2
              rw [hr] at h
              cases h
              rw [ih hr, placeSymbolInstance_opacities hs]

/-- The pass over the tiles keeps every entry of the placement map and does not touch the
opacity map. -/
theorem placeLayer_keeps {env : Collaborators} {scb : Bool} (tiles : List RenderTile) :
    ∀ {p p1 : Placement} {tiles1 : List RenderTile},
      Placement.placeLayer env scb p tiles = some (p1, tiles1) →
      p1.opacities = p.opacities ∧
        ∀ (k : Nat) (x : PlacementPair), IdMap.find p.placements k = some x →
          IdMap.find p1.placements k = some x := by
  induction tiles with
  | nil =>
      intro p p1 tiles1 h
      simp only [Placement.placeLayer] at h
      cases h
      exact ⟨rfl, fun _ _ hk => hk⟩
  | cons t rest ih =>
      intro p p1 tiles1 h
      simp only [Placement.placeLayer] at h
      cases hren : t.renderable with
      | false =>
          rw [hren] at h
          simp only [Bool.not_false, if_true] at h
          cases hr : Placement.placeLayer env scb p rest with
          | none => rw [hr] at h; cases h
          | some r =>
              obtain ⟨q, rest2⟩ := r
              rw [hr] at h
              cases h
              exact ih hr
      | true =>
          rw [hren] at h
          simp only [Bool.not_true, Bool.false_eq_true, if_false] at h
          generalize env.getLabelPlaneMatrix t.matrix t.bucket.textPitchAlignmentMap
            t.bucket.textRotationAlignmentMap (env.pixelsToTileUnits t) = tm at h
          generalize env.getLabelPlaneMatrix t.matrix t.bucket.iconPitchAlignmentMap
            t.bucket.iconRotationAlignmentMap (env.pixelsToTileUnits t) = im at h
          unfold Placement.placeLayerBucket at h
          cases hl : placeSymbolInstances env t.bucket t.matrix tm im
              (env.tileScale t.canonicalZ) scb p t.bucket.symbolInstances with
          | none => rw [hl] at h; cases h
          | some r =>
              obtain ⟨q, l1⟩ := r
              rw [hl] at h
              simp only at h
              cases hr : Placement.placeLayer env scb q rest with
              | none => rw [hr] at h; cases h
              | some r2 =>
                  obtain ⟨q2, rest2⟩ := r2
                  rw [hr] at h
                  cases h
                  obtain ⟨ho, hk⟩ := ih hr
                  refine ⟨by rw [ho, placeSymbolInstances_opacities _ hl], ?_⟩
                  intro k x hx
                  exact hk k x (placeSymbolInstances_find_mono _ hl k x hx)

/-- The targets `commit` stores for an identifier of the placement map that is not yet in
the opacity map are the entry of the placement map, converted to 1 or 0. -/
theorem commit_targets (durationRatio : Int → Int → ℚ) (self : Placement)
    (prevPlacement : Option Placement) (now : Int) (k : Nat) (pair : PlacementPair)
    (hfresh : IdMap.find self.opacities k = none)
    (hcur : IdMap.find self.placements k = some pair) :
    ((Placement.commit durationRatio self prevPlacement now).getOpacity k).text.targetOpacity =
        boolToFloat pair.text ∧
      ((Placement.commit durationRatio self prevPlacement now).getOpacity k).icon.targetOpacity =
        boolToFloat pair.icon := by
  cases prevPlacement with
  | none =>
      have h := find_commit_none durationRatio self now k
      rw [hfresh, hcur] at h
      rw [getOpacity_of_find _ _ _ h]
      exact ⟨rfl, rfl⟩
  | some prev =>
      have h := find_commit_some durationRatio self prev now k
      rw [hfresh, hcur] at h
      rw [getOpacity_of_find _ _ _ h]
      unfold nextJointOpacity
      cases IdMap.find prev.opacities k <;> exact ⟨rfl, rfl⟩

/-- C20: when a candidate that is not a duplicate is processed by a Placement whose
placement map does not yet hold its identifier, the placement map holds the candidate's
(placedText, placedIcon) for that identifier, and still does after the rest of the bucket
and any further tiles have been processed, whatever the identifiers and the decisions of
the later candidates; the targets `commit` then stores for the identifier are the first
candidate's placedText and placedIcon (1 for true, 0 for false). -/
theorem C20_first_entry_wins (env : Collaborators) (bucket : SymbolBucket)
    (pm tm im : Mat4) (scale : ℚ) (scb : Bool) (q : Placement) (s : SymbolInstance)
    (post : List SymbolInstance) (tiles : List RenderTile)
    (durationRatio : Int → Int → ℚ) (prevPlacement : Option Placement) (now : Int)
    (hdup : s.isDuplicate = false)
    (hs : indicesInRange bucket s = true)
    (hpost : post.all (indicesInRange bucket) = true)
    (htiles : tilesInRange tiles = true)
    (hempty : q.opacities = []) :
    ∃ (q1 p2 p3 : Placement) (s1 : SymbolInstance) (post1 : List SymbolInstance)
        (tiles3 : List RenderTile),
      placeSymbolInstance env bucket pm tm im scale scb q s = some (q1, s1) ∧
      placeSymbolInstances env bucket pm tm im scale scb q1 post = some (p2, post1) ∧
      Placement.placeLayer env scb p2 tiles = some (p3, tiles3) ∧
      (IdMap.find q.placements s1.crossTileID = none →
        IdMap.find p3.placements s1.crossTileID =
            some { text := s1.placedText, icon := s1.placedIcon } ∧
          ((Placement.commit durationRatio p3 prevPlacement now).getOpacity
              s1.crossTileID).text.targetOpacity = (if s1.placedText then 1 else 0) ∧
          ((Placement.commit durationRatio p3 prevPlacement now).getOpacity
              s1.crossTileID).icon.targetOpacity = (if s1.placedIcon then 1 else 0)) := by
  obtain ⟨⟨q1, s1⟩, hq1⟩ := placeSymbolInstance_isSome env bucket pm tm im scale scb q s hs
  obtain ⟨⟨p2, post1⟩, hp2⟩ :=
    placeSymbolInstances_isSome env bucket pm tm im scale scb post q1 hpost
  obtain ⟨⟨p3, tiles3⟩, hp3⟩ := placeLayer_isSome env scb tiles p2 htiles
  refine ⟨q1, p2, p3, s1, post1, tiles3, hq1, hp2, hp3, ?_⟩
  intro hnew
  have hfirst : IdMap.find q1.placements s1.crossTileID =
      some { text := s1.placedText, icon := s1.placedIcon } := by
    rcases placeSymbolInstance_inv hq1 with ⟨hd, _, _⟩ | ⟨_, t, i, _, _, hp, hs1⟩
    · rw [hdup] at hd
      cases hd
    · subst hp hs1
      have hnew2 : IdMap.find q.placements (recordPlacement bucket q s t i).2.crossTileID = none :=
        hnew
      simp only [recordPlacement] at hnew2 ⊢
      rw [IdMap.find_emplace, hnew2]
      simp
  have hfinal : IdMap.find p3.placements s1.crossTileID =
      some { text := s1.placedText, icon := s1.placedIcon } :=
    (placeLayer_keeps tiles hp3).2 _ _ (placeSymbolInstances_find_mono post hp2 _ _ hfirst)
  have hops : IdMap.find p3.opacities s1.crossTileID = none := by
    rw [(placeLayer_keeps tiles hp3).1, placeSymbolInstances_opacities post hp2,
      placeSymbolInstance_opacities hq1, hempty]
    rfl
  refine ⟨hfinal, ?_⟩
  exact commit_targets durationRatio p3 prevPlacement now _ _ hops hfinal

/-- C20 (witness): the coupled bucket processed by a new Placement; the second candidate
receives the identifier of the first and other flags. -/
theorem C20_first_entry_wins_witness :
    (sampleInstance 1 10 11).isDuplicate = false ∧
    indicesInRange coupledBucket (sampleInstance 1 10 11) = true ∧
    [sampleInstance 0 12 11].all (indicesInRange coupledBucket) = true ∧
    tilesInRange [] = true ∧
    (Placement.new 0).opacities = [] ∧
    ∃ (q1 p2 p3 : Placement) (s1 : SymbolInstance) (post1 : List SymbolInstance)
        (tiles3 : List RenderTile),
      placeSymbolInstance sampleCollaborators coupledBucket [] [] [] 1 false (Placement.new 0)
        (sampleInstance 1 10 11) = some (q1, s1) ∧
      placeSymbolInstances sampleCollaborators coupledBucket [] [] [] 1 false q1
        [sampleInstance 0 12 11] = some (p2, post1) ∧
      Placement.placeLayer sampleCollaborators false p2 [] = some (p3, tiles3) ∧
      (IdMap.find (Placement.new 0).placements s1.crossTileID = none →
        IdMap.find p3.placements s1.crossTileID =
            some { text := s1.placedText, icon := s1.placedIcon } ∧
          ((Placement.commit exactRatio p3 none 0).getOpacity
              s1.crossTileID).text.targetOpacity = (if s1.placedText then 1 else 0) ∧
          ((Placement.commit exactRatio p3 none 0).getOpacity
              s1.crossTileID).icon.targetOpacity = (if s1.placedIcon then 1 else 0)) :=
  ⟨rfl, rfl, rfl, rfl, rfl,
    C20_first_entry_wins sampleCollaborators coupledBucket [] [] [] 1 false (Placement.new 0)
      (sampleInstance 1 10 11) [sampleInstance 0 12 11] [] exactRatio none 0 rfl rfl rfl rfl rfl⟩

/-! ## Coupling law (claim C9) -/

/-- C9 (amended): in `placeLayerBucket` on a bucket where neither half can stand alone (and
whose placed-symbol indices are in range), a candidate `s` that is not a duplicate,
standing between the candidates `pre` and `post`, is processed in the state `q` that the
pass over `pre` returns; with `t` and `i` the raw answers of the collision structure for
its text and its icon in that state, the flags placedText and placedIcon recorded on the
candidate are equal to each other and to `t AND i`; at the end of the pass the placement
map holds the pair (`t AND i`, `t AND i`) for the candidate's identifier when the
identifier was not in the map in state `q`, and otherwise holds the entry the map had in
state `q`. -/
theorem C9_coupling_law (env : Collaborators) (self : Placement) (bucket : SymbolBucket)
    (pm tm im : Mat4) (scale : ℚ) (scb : Bool) (pre post : List SymbolInstance)
    (s : SymbolInstance)
    (hsplit : bucket.symbolInstances = pre ++ s :: post)
    (hrange : bucketInRange bucket = true)
    (hdup : s.isDuplicate = false)
    (hicon : (!bucket.hasTextData || bucket.textOptional) = false)
    (htext : (!bucket.hasIconData || bucket.iconOptional) = false) :
    ∃ (q q1 self1 : Placement) (pre1 post1 : List SymbolInstance) (s1 : SymbolInstance)
        (t i : Bool),
      placeSymbolInstances env bucket pm tm im scale scb self pre = some (q, pre1) ∧
      rawPlaceText env bucket pm tm scale scb q s = some t ∧
      rawPlaceIcon env bucket pm im scale scb q s = some i ∧
      placeSymbolInstance env bucket pm tm im scale scb q s = some (q1, s1) ∧
      placeSymbolInstances env bucket pm tm im scale scb q1 post = some (self1, post1) ∧
      Placement.placeLayerBucket env self bucket pm tm im scale scb =
        some (self1, { bucket with symbolInstances := pre1 ++ s1 :: post1 }) ∧
      s1.placedText = (t && i) ∧ s1.placedIcon = (t && i) ∧
      (IdMap.find q.placements s1.crossTileID = none →
        IdMap.find self1.placements s1.crossTileID =
          some { text := t && i, icon := t && i }) ∧
      (∀ x, IdMap.find q.placements s1.crossTileID = some x →
        IdMap.find self1.placements s1.crossTileID = some x) := by
  have hall : (pre ++ s :: post).all (indicesInRange bucket) = true := by
    rw [← hsplit]
    exact hrange
  simp only [List.all_append, List.all_cons, Bool.and_eq_true] at hall
  obtain ⟨hpre, hs, hpost⟩ := hall
  obtain ⟨⟨q, pre1⟩, hq⟩ := placeSymbolInstances_isSome env bucket pm tm im scale scb pre self hpre
  obtain ⟨⟨q1, s1⟩, hq1⟩ := placeSymbolInstance_isSome env bucket pm tm im scale scb q s hs
  obtain ⟨⟨self1, post1⟩, hself1⟩ :=
    placeSymbolInstances_isSome env bucket pm tm im scale scb post q1 hpost
  obtain ⟨t, i, hrt, hri, h1, h2, hmap⟩ := placeSymbolInstance_coupled hq1 hdup hicon htext
  refine ⟨q, q1, self1, pre1, post1, s1, t, i, hq, hrt, hri, hq1, hself1, ?_, h1, h2, ?_, ?_⟩
  · unfold Placement.placeLayerBucket
    rw [hsplit, placeSymbolInstances_append, hq]
    simp only [placeSymbolInstances, hq1, hself1]
  · intro hnone
    apply placeSymbolInstances_find_mono post hself1
    rw [hmap, hnone]
    rfl
  · intro x hx
    apply placeSymbolInstances_find_mono post hself1
    rw [hmap, hx]
    rfl

/-- C9 (witness): the second candidate of the bucket of the counterexample, processed by a
new Placement after the first candidate. -/
theorem C9_coupling_law_witness :
    coupledBucket.symbolInstances = [sampleInstance 1 10 11] ++ sampleInstance 0 12 11 :: [] ∧
    bucketInRange coupledBucket = true ∧
    (sampleInstance 0 12 11).isDuplicate = false ∧
    (!coupledBucket.hasTextData || coupledBucket.textOptional) = false ∧
    (!coupledBucket.hasIconData || coupledBucket.iconOptional) = false ∧
    ∃ (q q1 self1 : Placement) (pre1 post1 : List SymbolInstance) (s1 : SymbolInstance)
        (t i : Bool),
      placeSymbolInstances sampleCollaborators coupledBucket [] [] [] 1 false (Placement.new 0)
        [sampleInstance 1 10 11] = some (q, pre1) ∧
      rawPlaceText sampleCollaborators coupledBucket [] [] 1 false q (sampleInstance 0 12 11) =
        some t ∧
      rawPlaceIcon sampleCollaborators coupledBucket [] [] 1 false q (sampleInstance 0 12 11) =
        some i ∧
      placeSymbolInstance sampleCollaborators coupledBucket [] [] [] 1 false q
        (sampleInstance 0 12 11) = some (q1, s1) ∧
      placeSymbolInstances sampleCollaborators coupledBucket [] [] [] 1 false q1 [] =
        some (self1, post1) ∧
      Placement.placeLayerBucket sampleCollaborators (Placement.new 0) coupledBucket [] [] [] 1
          false =
        some (self1, { coupledBucket with symbolInstances := pre1 ++ s1 :: post1 }) ∧
      s1.placedText = (t && i) ∧ s1.placedIcon = (t && i) ∧
      (IdMap.find q.placements s1.crossTileID = none →
        IdMap.find self1.placements s1.crossTileID =
          some { text := t && i, icon := t && i }) ∧
      (∀ x, IdMap.find q.placements s1.crossTileID = some x →
        IdMap.find self1.placements s1.crossTileID = some x) :=
  ⟨rfl, rfl, rfl, rfl, rfl,
    C9_coupling_law sampleCollaborators (Placement.new 0) coupledBucket [] [] [] 1 false
      [sampleInstance 1 10 11] [] (sampleInstance 0 12 11) rfl rfl rfl rfl rfl⟩

end mbgl
